import Mathlib

/-!
# Reply Guy content script: a shallow embedding with verified properties

This file embeds the classification core of the Reply Guy browser extension's
content script (`content.js`) in Lean 4 and proves properties about it.

The embedding is written from the source:
* `parseTweetTime`, `extractFollowerCountFromText`, `parseFollowerCount`
  (string-level parsers);
* `getTweetId` and the first two resolution methods of
  `getTweetConversationId` over a node model (`TweetDom`);
* the classification engine shared by `filterTweets` and
  `processTweetsImmediately`, with the session memory sets
  (`filteredParentIds`, `allFilteredTweets`), the stats counters, and the
  per-node `reply-guy-filtered-tweet` class flag threaded explicitly.

JavaScript semantics conventions used throughout:
* a JS `Date` value is `Option Int` (milliseconds since epoch; `none` is an
  Invalid Date / NaN value, which compares false against anything);
* `parseInt` is `jsParseInt : String → Option Int` (`none` is NaN); the
  hexadecimal `0x` corner of radix-free `parseInt` is not modelled, as no
  timestamp text exercises it;
* JS `Set` objects over strings are modelled as duplicate-free `List String`
  with `jsSetAdd` / `jsSetDelete` / membership;
* decimal arithmetic in `extractFollowerCountFromText` (`parseFloat`,
  multiplication, `Math.floor`) is modelled exactly over the decimal capture
  in integer arithmetic; this agrees with the binary float computation on
  all inputs considered here (their fractional parts are exactly
  representable).
-/

namespace ReplyGuy

/-! ## String helpers (JS primitives) -/

/-- `listStarts pat cs` holds when `pat` is an initial run of `cs`
(used for literal matching, e.g. the `"Follower"` tail of the regex and the
`"/status/"` path marker). -/
def listStarts : List Char → List Char → Bool
  | [], _ => true
  | _ :: _, [] => false
  | a :: as, b :: bs => a == b && listStarts as bs

/-- JS `String.prototype.includes`: substring containment. -/
def strIncludes (s pat : String) : Bool :=
  go s.data
where
  go : List Char → Bool
    | [] => listStarts pat.data []
    | cs@(_ :: rest) => listStarts pat.data cs || go rest

/-- Digits of a numeral, most significant first, to a natural number. -/
def digitsToNat (ds : List Char) : Nat :=
  ds.foldl (fun n c => 10 * n + (c.toNat - '0'.toNat)) 0

/-- ASCII lowering of one character.  The texts the content script lowers
(relative-time strings, handles, hrefs) are ASCII; the Unicode cases of JS
`toLowerCase` are not exercised. -/
def lowerChar : Char → Char
  | 'A' => 'a' | 'B' => 'b' | 'C' => 'c' | 'D' => 'd' | 'E' => 'e' | 'F' => 'f'
  | 'G' => 'g' | 'H' => 'h' | 'I' => 'i' | 'J' => 'j' | 'K' => 'k' | 'L' => 'l'
  | 'M' => 'm' | 'N' => 'n' | 'O' => 'o' | 'P' => 'p' | 'Q' => 'q' | 'R' => 'r'
  | 'S' => 's' | 'T' => 't' | 'U' => 'u' | 'V' => 'v' | 'W' => 'w' | 'X' => 'x'
  | 'Y' => 'y' | 'Z' => 'z' | c => c

/-- JS `String.prototype.toLowerCase` (ASCII fragment). -/
def jsLower (s : String) : String :=
  String.mk (s.data.map lowerChar)

/-- JS `String.prototype.trim`: strip whitespace from both ends. -/
def jsTrim (s : String) : String :=
  String.mk
    (((s.data.dropWhile Char.isWhitespace).reverse.dropWhile Char.isWhitespace).reverse)

/-- JS `parseInt(text)` on already-trimmed text is: skip whitespace, optional
sign, then the maximal run of leading decimal digits; NaN (here `none`) when
that run is empty. -/
def jsParseInt (s : String) : Option Int :=
  let cs := s.data.dropWhile Char.isWhitespace
  match cs with
  | '-' :: r => (digitsRun r).map (fun n => -(n : Int))
  | '+' :: r => (digitsRun r).map (fun n => (n : Int))
  | r => (digitsRun r).map (fun n => (n : Int))
where
  digitsRun (r : List Char) : Option Nat :=
    let ds := r.takeWhile Char.isDigit
    if ds.isEmpty then none else some (digitsToNat ds)

/-- JS `<=` between a possibly-Invalid `Date` and a valid one: an Invalid
Date (NaN) compares false. -/
def jsLe (a : Option Int) (b : Int) : Bool :=
  match a with
  | some x => decide (x ≤ b)
  | none => false

/-! ## `parseTweetTime` (content.js lines 904–939)

`parseTweetTime` is parameterised by `dp : String → Option Int`, the host's
`new Date(string)` parser (ECMAScript leaves non-ISO date parsing
implementation-defined); `none` is an unparsable / Invalid result. -/

/-- The `time` element handed to `parseTweetTime`: its machine-readable
`datetime` attribute (if present) and its text content. -/
structure TimeEl where
  datetime : Option String
  text : String
deriving DecidableEq, Repr

/-- Embedding of `parseTweetTime`: prefer the `datetime` attribute; otherwise
dispatch on the trimmed lowercased text by substring containment of
`"now"`, `'m'`, `'h'`, `'d'`, `'s'` in that order, converting with
`parseInt`; text containing none of those is given to the host date parser,
and on failure the result is the epoch `Date(0)`. -/
def parseTweetTime (dp : String → Option Int) (now : Int) (timeElement : TimeEl) : Option Int :=
  match timeElement.datetime with
  | some attr => dp attr
  | none =>
    let timeText := jsLower (jsTrim timeElement.text)
    if strIncludes timeText "now" then
      some now
    else if strIncludes timeText "m" then
      (jsParseInt timeText).map (fun minutes => now - minutes * 60000)
    else if strIncludes timeText "h" then
      (jsParseInt timeText).map (fun hours => now - hours * 3600000)
    else if strIncludes timeText "d" then
      (jsParseInt timeText).map (fun days => now - days * 86400000)
    else if strIncludes timeText "s" then
      (jsParseInt timeText).map (fun seconds => now - seconds * 1000)
    else
      match dp timeText with
      | some parsedDate => some parsedDate
      | none => some 0

/-! ## `extractFollowerCountFromText` (content.js lines 977–1001)

The regex `/(\d+(?:\.\d+)?)\s*([KkMmBb]?)\s*(?:Follower|Followers)/` is
embedded as a leftmost-position search with maximal-munch components.  For
this pattern, greedy matching without backtracking coincides with the regex
engine: shortening any greedy run leaves the next position holding a
character that no later pattern component can accept. -/

/-- One suffix character of the count, as matched by `[KkMmBb]?`. -/
def isSuffixChar (c : Char) : Bool :=
  c == 'K' || c == 'k' || c == 'M' || c == 'm' || c == 'B' || c == 'b'

/-- Attempt the follower-count pattern at the head of `cs`, returning the
integer digits, fraction digits and optional suffix character on success. -/
def followerMatchAt (cs : List Char) : Option (List Char × List Char × Option Char) :=
  let ds := cs.takeWhile Char.isDigit
  let rest := cs.dropWhile Char.isDigit
  if ds.isEmpty then none
  else
    let (frac, rest₂) :=
      match rest with
      | '.' :: r =>
        let fs := r.takeWhile Char.isDigit
        if fs.isEmpty then ([], rest) else (fs, r.dropWhile Char.isDigit)
      | _ => ([], rest)
    let rest₃ := rest₂.dropWhile Char.isWhitespace
    let (suffix, rest₄) :=
      match rest₃ with
      | c :: r => if isSuffixChar c then (some c, r) else ((none : Option Char), rest₃)
      | [] => ((none : Option Char), rest₃)
    let rest₅ := rest₄.dropWhile Char.isWhitespace
    if listStarts "Follower".data rest₅ then some (ds, frac, suffix) else none

/-- Leftmost match of the follower-count pattern in a character list. -/
def findFollowerMatch : List Char → Option (List Char × List Char × Option Char)
  | [] => none
  | cs@(_ :: rest) =>
    match followerMatchAt cs with
    | some m => some m
    | none => findFollowerMatch rest

/-- Embedding of `extractFollowerCountFromText`: match the count pattern,
take `parseFloat` of the numeric capture (the exact decimal `I.F`), apply
the case-insensitive `k`/`m`/`b` multiplier `M`, and floor; `none` when the
text is falsy or has no match.  The floored product is computed in exact
integer arithmetic: for `I, F, M, L ≥ 0` with `I·M` an integer,
`Math.floor((I + F/10^L)·M) = I·M + (F·M) / 10^L` with flooring natural
division. -/
def extractFollowerCountFromText (text : String) : Option Int :=
  if text == "" then none
  else
    match findFollowerMatch text.data with
    | none => none
    | some (ds, frac, suffix) =>
      let multiplier : Nat :=
        match suffix with
        | none => 1
        | some c =>
          let m := lowerChar c
          if m == 'k' then 1000
          else if m == 'm' then 1000000
          else if m == 'b' then 1000000000
          else 1
      some (Int.ofNat (digitsToNat ds * multiplier +
        digitsToNat frac * multiplier / 10 ^ frac.length))

/-! ## Identity and conversation-id resolution over a node model
(content.js lines 427–508)

`TweetDom` models one `[data-testid="tweet"]` node as consumed by
`getTweetId` and by resolution methods 1–2 of `getTweetConversationId`:
its identity-bearing data attributes and its descendant anchors whose
`href` contains `"/status/"` (the `a[href*="/status/"]` selector), in
document order, each flagged with whether it sits inside a
`[data-testid="caret"]` or `[data-testid="card.wrapper"]` region.
Resolution methods 3–4 (enclosing-container links and the "replying to"
cross-reference) run only after method 2 fails and read other parts of the
document; they are outside this node model. -/

/-- An anchor matched by `a[href*="/status/"]` inside the tweet node. -/
structure DomLink where
  href : String
  inCaret : Bool
  inCardWrapper : Bool
deriving DecidableEq, Repr

/-- A tweet node with the attributes the identity resolvers read. -/
structure TweetDom where
  dataTweetId : Option String
  dataStatusId : Option String
  dataConversationId : Option String
  dataConverationId : Option String
  dataTweetConversationId : Option String
  statusLinks : List DomLink
deriving DecidableEq, Repr

/-- JS truthiness of a `getAttribute` result (`null` and `""` are falsy). -/
def truthyStr : Option String → Bool
  | none => false
  | some s => s != ""

/-- JS `a || b` over `getAttribute` results. -/
def jsOrStr (a b : Option String) : Option String :=
  if truthyStr a then a else b

/-- First capture of `/\/status\/(\d+)/` in an `href`: the leftmost
occurrence of `"/status/"` that is directly followed by at least one digit,
capturing the maximal digit run. -/
def statusIdFrom : List Char → Option String
  | [] => none
  | cs@(_ :: rest) =>
    if listStarts "/status/".data cs then
      let ds := (cs.drop 8).takeWhile Char.isDigit
      if ds.isEmpty then statusIdFrom rest else some (String.mk ds)
    else statusIdFrom rest

/-- Embedding of `getTweetId`: the `data-tweet-id` / `data-status-id`
attributes, else the status-id captured from the node's first
`a[href*="/status/"]` anchor. -/
def getTweetId (tweet : TweetDom) : Option String :=
  let tweetId := jsOrStr tweet.dataTweetId tweet.dataStatusId
  if truthyStr tweetId then tweetId
  else
    match tweet.statusLinks.head? with
    | some statusLink => statusIdFrom statusLink.href.data
    | none => none

/-- Method 2 of `getTweetConversationId`: walk the node's own
`a[href*="/status/"]` anchors in order, skipping any inside a caret/menu or
embedded-card region, and return the first captured status id. -/
def conversationIdMethod2 : List DomLink → Option String
  | [] => none
  | link :: rest =>
    if link.inCaret then conversationIdMethod2 rest
    else if link.inCardWrapper then conversationIdMethod2 rest
    else
      match statusIdFrom link.href.data with
      | some m => some m
      | none => conversationIdMethod2 rest

/-- Embedding of resolution methods 1–2 of `getTweetConversationId`
(methods 3–4 would run only when this yields `none`). -/
def getTweetConversationIdM12 (tweet : TweetDom) : Option String :=
  let conversationId :=
    jsOrStr (jsOrStr tweet.dataConversationId tweet.dataConverationId)
      tweet.dataTweetConversationId
  if truthyStr conversationId then conversationId
  else conversationIdMethod2 tweet.statusLinks

/-! ## Settings load from storage (content.js lines 26–50)

`chrome.storage.sync.get` hands the callback arbitrary stored values; the
guards are a truthiness test for `maxAge` and `typeof` tests for the other
three fields.  `JSVal` models the value space relevant to those guards. -/

/-- A stored JavaScript value as seen by the settings-load callback. -/
inductive JSVal where
  | undef : JSVal
  | nullV : JSVal
  | boolV : Bool → JSVal
  | numV : ℚ → JSVal
  | nanV : JSVal
  | strV : String → JSVal
deriving DecidableEq, Repr

/-- JS truthiness of a stored value. -/
def JSVal.truthy : JSVal → Bool
  | .undef => false
  | .nullV => false
  | .boolV b => b
  | .numV q => q != 0
  | .nanV => false
  | .strV s => s != ""

/-- `typeof v === 'boolean'`. -/
def JSVal.isBoolean : JSVal → Bool
  | .boolV _ => true
  | _ => false

/-- `typeof v === 'number'` (`NaN` is a number). -/
def JSVal.isNumber : JSVal → Bool
  | .numV _ => true
  | .nanV => true
  | _ => false

/-- The `settings` record as held by the content script. -/
structure JSSettings where
  maxAge : JSVal
  enabled : JSVal
  followerFilterEnabled : JSVal
  minFollowers : JSVal
deriving DecidableEq, Repr

/-- The module-level defaults (content.js lines 26–31). -/
def defaultSettings : JSSettings :=
  { maxAge := .numV 120
    enabled := .boolV true
    followerFilterEnabled := .boolV false
    minFollowers := .numV 2000 }

/-- The record returned by `chrome.storage.sync.get` (each key possibly
absent, i.e. `undefined`). -/
structure StorageResult where
  maxAge : JSVal
  enabled : JSVal
  followerFilterEnabled : JSVal
  minFollowers : JSVal
deriving DecidableEq, Repr

/-- Embedding of the storage-load callback (content.js lines 43–47):
`maxAge` is taken when truthy, the other three only under their `typeof`
guards. -/
def loadStoredSettings (settings : JSSettings) (result : StorageResult) : JSSettings :=
  { maxAge := if result.maxAge.truthy then result.maxAge else settings.maxAge
    enabled := if result.enabled.isBoolean then result.enabled else settings.enabled
    followerFilterEnabled :=
      if result.followerFilterEnabled.isBoolean then result.followerFilterEnabled
      else settings.followerFilterEnabled
    minFollowers :=
      if result.minFollowers.isNumber then result.minFollowers
      else settings.minFollowers }

/-! ## The classification engine (content.js lines 299–407 and 611–774)

The engine is modelled over resolved entity data: a `TweetNode` carries, for
one `[data-testid="tweet"]` node, the values the resolver and adapter calls
inside the passes return for it (`getTweetId`, `getTweetConversationId`,
`isTweetReply`, the `time` descendant, the follower-count source text, the
"replying to" link text and the author profile `href`), plus the node's
current `reply-guy-filtered-tweet` class bit, which the pass both reads
(through `isReplyingToFilteredUser`) and writes. -/

/-- Numeric configuration read by the passes. -/
structure Settings where
  maxAge : Int
  followerFilterEnabled : Bool
  minFollowers : Int
deriving DecidableEq, Repr

/-- One tweet node with its resolved data and its current class bit. -/
structure TweetNode where
  /-- Value of `getTweetId` for this node. -/
  tweetId : Option String
  /-- Value of `getTweetConversationId` for this node. -/
  conversationId : Option String
  /-- Value of `isTweetReply` for this node. -/
  isReply : Bool
  /-- The `time` descendant, when present. -/
  time : Option TimeEl
  /-- Text of the follower-count source `parseFollowerCount` resolves for
  this node's author (profile-summary region, else hover-card span), `none`
  when no profile link or no source is available. -/
  followerSourceText : Option String
  /-- Text content of the link next to a "replying to" span, when the node
  has that affordance. -/
  replyingTo : Option String
  /-- `href` of the node's first `a[role="link"][href^="/"]` anchor. -/
  authorHref : Option String
  /-- Whether the node currently carries the `reply-guy-filtered-tweet`
  class. -/
  filtered : Bool
deriving DecidableEq, Repr

/-- The decision recorded for a node by one pass (`filterReason`, with
`shown` for the unfiltered outcome). -/
inductive Reason where
  | shown : Reason
  | previouslyFiltered : Reason
  | parentFiltered : Reason
  | time : Reason
  | followers : Reason
deriving DecidableEq, Repr

/-- Session memory and counters mutated by the passes. -/
structure Stats where
  hidden : Nat
  shown : Nat
  hiddenByFollowers : Nat
deriving DecidableEq, Repr

/-- The module-level mutable state the passes read and write:
`filteredParentIds`, `allFilteredTweets` and `statsCounter`. -/
structure EngState where
  filteredParentIds : List String
  allFilteredTweets : List String
  stats : Stats
deriving DecidableEq, Repr

/-- JS `Set.prototype.add` (no duplicates). -/
def jsSetAdd (x : String) (s : List String) : List String :=
  if x ∈ s then s else s ++ [x]

/-- JS `Set.prototype.delete`. -/
def jsSetDelete (x : String) (s : List String) : List String :=
  s.filter (fun y => y ≠ x)

/-- `if (v) set.add(v)` for a nullable id. -/
def addIfSome (x : Option String) (s : List String) : List String :=
  match x with
  | some v => jsSetAdd v s
  | none => s

/-- `if (v) set.delete(v)` for a nullable id. -/
def delIfSome (x : Option String) (s : List String) : List String :=
  match x with
  | some v => jsSetDelete v s
  | none => s

/-- `tweetId && allFilteredTweets.has(tweetId)`. -/
def hasIdFiltered (st : EngState) (tweetId : Option String) : Bool :=
  match tweetId with
  | some id => decide (id ∈ st.allFilteredTweets)
  | none => false

/-- `conversationId && filteredParentIds.has(conversationId)`. -/
def convFiltered (st : EngState) (conversationId : Option String) : Bool :=
  match conversationId with
  | some c => decide (c ∈ st.filteredParentIds)
  | none => false

/-- Remove the first `'@'` character, as JS `text.replace('@', '')` does. -/
def replaceFirstAtSign : List Char → List Char
  | [] => []
  | c :: cs => if c == '@' then cs else c :: replaceFirstAtSign cs

/-- The handle a "replying to" link's text denotes:
`text.replace('@', '').trim().toLowerCase()`. -/
def linkUsername (linkText : String) : String :=
  jsLower (jsTrim (String.mk (replaceFirstAtSign linkText.data)))

/-- The author handle an `href` denotes:
`href.replace(/^\//, '').split('/')[0].toLowerCase()`. -/
def authorHandleOfHref (href : String) : String :=
  let stripped :=
    match href.data with
    | '/' :: r => r
    | s => s
  jsLower (String.mk (stripped.takeWhile (fun c => c ≠ '/')))

/-- Embedding of `isReplyingToFilteredUser` (content.js lines 569–599):
when the node has a "replying to" affordance, scan every tweet node in the
document that currently carries the filtered class for one whose author
matches the replied-to handle. -/
def isReplyingToFilteredUser (doc : List TweetNode) (tweet : TweetNode) : Bool :=
  match tweet.replyingTo with
  | none => false
  | some linkText =>
    let username := linkUsername linkText
    doc.any fun t =>
      t.filtered &&
        (match t.authorHref with
         | some href => authorHandleOfHref href == username
         | none => false)

/-- Embedding of `parseFollowerCount`: extract a count from the resolved
source text, `none` when no source is available. -/
def parseFollowerCount (tweet : TweetNode) : Option Int :=
  match tweet.followerSourceText with
  | some text => extractFollowerCountFromText text
  | none => none

/-- The time-filter block of both pass bodies (lines 687–718 and 331–363):
whether the age criterion fires for this node, and the memory sets after
its seeding side effects (ids recorded under `if (tweetId)` /
`if (conversationId)` guards, with extra cascade seeding for non-reply
nodes). -/
def timeCriterion (dp : String → Option Int) (now : Int) (cfg : Settings)
    (tweet : TweetNode) (st : EngState) : Bool × EngState :=
  match tweet.time with
  | none => (false, st)
  | some timestamp =>
    if jsLe (parseTweetTime dp now timestamp) (now - cfg.maxAge * 60000) then
      if !tweet.isReply then
        (true,
          { st with
            filteredParentIds :=
              addIfSome tweet.conversationId
                (addIfSome tweet.tweetId st.filteredParentIds)
            allFilteredTweets := addIfSome tweet.tweetId st.allFilteredTweets })
      else
        (true, { st with allFilteredTweets := addIfSome tweet.tweetId st.allFilteredTweets })
    else (false, st)

/-- The follower-filter block of both pass bodies (lines 720–736 and
365–381), entered only when no earlier criterion fired: filter when the
filter is enabled and a resolved count is below the threshold, else leave
the node shown. -/
def followerCriterion (cfg : Settings) (tweet : TweetNode) (st : EngState) :
    Reason × EngState :=
  if cfg.followerFilterEnabled then
    match parseFollowerCount tweet with
    | some followerCount =>
      if followerCount < cfg.minFollowers then
        (Reason.followers,
          { st with allFilteredTweets := addIfSome tweet.tweetId st.allFilteredTweets })
      else (Reason.shown, st)
    | none => (Reason.shown, st)
  else (Reason.shown, st)

/-- The `shouldFilter`/`filterReason` computation shared verbatim by the
bodies of `filterTweets` (lines 660–738) and `processTweetsImmediately`
(lines 304–383): previously-filtered check, then the parent cascade, then
the age criterion (with its memory seeding), then the follower criterion.
Returns the decision and the updated memory sets. -/
def decideTweet (dp : String → Option Int) (now : Int) (cfg : Settings)
    (doc : List TweetNode) (tweet : TweetNode) (st : EngState) : Reason × EngState :=
  if hasIdFiltered st tweet.tweetId then
    (Reason.previouslyFiltered, st)
  else if tweet.isReply
      && (convFiltered st tweet.conversationId || isReplyingToFilteredUser doc tweet) then
    (Reason.parentFiltered,
      { st with allFilteredTweets := addIfSome tweet.tweetId st.allFilteredTweets })
  else if (timeCriterion dp now cfg tweet st).1 then
    (Reason.time, (timeCriterion dp now cfg tweet st).2)
  else followerCriterion cfg tweet (timeCriterion dp now cfg tweet st).2

/-- The `if (shouldFilter) … else …` epilogue of both passes: update the
counters and, in the shown branch, delete the id from `allFilteredTweets`. -/
def applyDecision (tweet : TweetNode) (reason : Reason) (st : EngState) : EngState :=
  if reason == Reason.shown then
    { st with
      allFilteredTweets := delIfSome tweet.tweetId st.allFilteredTweets
      stats := { st.stats with shown := st.stats.shown + 1 } }
  else
    { st with
      stats :=
        { st.stats with
          hidden := st.stats.hidden + 1
          hiddenByFollowers :=
            st.stats.hiddenByFollowers + (if reason == Reason.followers then 1 else 0) } }

/-- Classify a single tweet node: decision logic followed by its
application to the counters and memory. -/
def classifyTweet (dp : String → Option Int) (now : Int) (cfg : Settings)
    (doc : List TweetNode) (tweet : TweetNode) (st : EngState) : Reason × EngState :=
  let rs := decideTweet dp now cfg doc tweet st
  (rs.1, applyDecision tweet rs.1 rs.2)

/-- The classification loop of a pass over the nodes still to process
(`todo`), accumulating the already-processed nodes (`done`) with their class
bits updated, since `isReplyingToFilteredUser` scans the whole document
mid-pass.  Returns the updated document, the decision per node and the final
state. -/
def runClassify (dp : String → Option Int) (now : Int) (cfg : Settings) :
    List TweetNode → List TweetNode → EngState → List TweetNode × List Reason × EngState
  | done, [], st => (done, [], st)
  | done, tweet :: rest, st =>
    let c := classifyTweet dp now cfg (done ++ tweet :: rest) tweet st
    let tweet' := { tweet with filtered := !(c.1 == Reason.shown) }
    let r := runClassify dp now cfg (done ++ [tweet']) rest c.2
    (r.1, c.1 :: r.2.1, r.2.2)

/-- The body of phase 1 of `filterTweets` (lines 629–656) for one node:
when a non-reply node's timestamp parses at or past the cutoff, seed
`filteredParentIds` (and `allFilteredTweets`) with its id and conversation
id. -/
def seedStep (dp : String → Option Int) (now : Int) (cfg : Settings)
    (st : EngState) (tweet : TweetNode) : EngState :=
  if !tweet.isReply then
    match tweet.time with
    | some timestamp =>
      if jsLe (parseTweetTime dp now timestamp) (now - cfg.maxAge * 60000) then
        { st with
          filteredParentIds :=
            addIfSome tweet.conversationId
              (addIfSome tweet.tweetId st.filteredParentIds)
          allFilteredTweets := addIfSome tweet.tweetId st.allFilteredTweets }
      else st
    | none => st
  else st

/-- Phase 1 of `filterTweets` (lines 628–656): walk every node, seeding
cascade state from old non-reply nodes, before any node is classified. -/
def seedOldParents (dp : String → Option Int) (now : Int) (cfg : Settings)
    (doc : List TweetNode) (st : EngState) : EngState :=
  doc.foldl (seedStep dp now cfg) st

/-- Result of one pass: the document with updated class bits, one decision
per node, and the final module state. -/
structure PassResult where
  doc : List TweetNode
  decisions : List Reason
  state : EngState
deriving DecidableEq, Repr

/-- Embedding of the full reconciliation pass `filterTweets`
(lines 611–774): reset the counters, seed cascade state from old non-reply
nodes, then classify every node in document order. -/
def filterTweets (dp : String → Option Int) (now : Int) (cfg : Settings)
    (doc : List TweetNode) (st₀ : EngState) : PassResult :=
  let stReset := { st₀ with stats := ⟨0, 0, 0⟩ }
  let stSeeded := seedOldParents dp now cfg doc stReset
  let r := runClassify dp now cfg [] doc stSeeded
  ⟨r.1, r.2.1, r.2.2⟩

/-- Embedding of the incremental pass `processTweetsImmediately`
(lines 299–407): classify a batch of nodes with the same per-node logic,
without resetting counters and without the seeding phase.  The batch is
modelled as the scanned node list. -/
def processTweetsImmediately (dp : String → Option Int) (now : Int) (cfg : Settings)
    (tweets : List TweetNode) (st : EngState) : PassResult :=
  let r := runClassify dp now cfg [] tweets st
  ⟨r.1, r.2.1, r.2.2⟩

/-! ## Specification-side decision function

`specDecision` is written from the spec's §4.3 numbered rules (strict
priority, first match wins), to be compared with the engine's decision. -/

/-- Whether the age criterion applies and reports too-old for a node. -/
def ageFires (dp : String → Option Int) (now : Int) (cfg : Settings)
    (tweet : TweetNode) : Bool :=
  match tweet.time with
  | some timestamp => jsLe (parseTweetTime dp now timestamp) (now - cfg.maxAge * 60000)
  | none => false

/-- The spec's §4.3 classification: rules 1–4 in strict priority order,
else `Shown`. -/
def specDecision (dp : String → Option Int) (now : Int) (cfg : Settings)
    (doc : List TweetNode) (tweet : TweetNode) (st : EngState) : Reason :=
  if hasIdFiltered st tweet.tweetId then Reason.previouslyFiltered
  else if tweet.isReply
      && (convFiltered st tweet.conversationId || isReplyingToFilteredUser doc tweet) then
    Reason.parentFiltered
  else if ageFires dp now cfg tweet then Reason.time
  else if cfg.followerFilterEnabled
      && (match parseFollowerCount tweet with
          | some followerCount => decide (followerCount < cfg.minFollowers)
          | none => false) then
    Reason.followers
  else Reason.shown

/-! ## Concrete inputs used to exercise the embedding

`noDateParse` is a host whose `new Date(string)` always fails;
`someDateParse` one where it always succeeds (used to show a branch never
consults it).  The sample nodes replay small feed situations: an old root
authored by `alice`, a recent reply to `@alice` with an unrelated
conversation id, a recent low-follower root, and an old root / reply pair
sharing a conversation id. -/

def noDateParse : String → Option Int := fun _ => none

def someDateParse : String → Option Int := fun _ => some 500

/-- maxAge 120 minutes, follower filter on with threshold 2000. -/
def sampleSettings : Settings := ⟨120, true, 2000⟩

/-- Empty session memory and zeroed counters. -/
def emptyState : EngState := ⟨[], [], ⟨0, 0, 0⟩⟩

/-- A recent reply to `@alice` whose conversation id is unresolved. -/
def sampleReplyB : TweetNode :=
  { tweetId := some "2", conversationId := none, isReply := true,
    time := some ⟨none, "5m"⟩, followerSourceText := some "5K Followers",
    replyingTo := some "@alice", authorHref := some "/bob/status/2",
    filtered := false }

/-- An old root tweet authored by `alice`. -/
def sampleRootA : TweetNode :=
  { tweetId := some "1", conversationId := none, isReply := false,
    time := some ⟨none, "300m"⟩, followerSourceText := none,
    replyingTo := none, authorHref := some "/alice", filtered := false }

/-- A recent root tweet whose author has 100 followers. -/
def sampleLowFollowerC : TweetNode :=
  { tweetId := some "3", conversationId := none, isReply := false,
    time := some ⟨none, "5m"⟩, followerSourceText := some "100 Followers",
    replyingTo := none, authorHref := some "/carol", filtered := false }

/-- The document replayed twice for the idempotence analysis. -/
def sampleDoc : List TweetNode := [sampleReplyB, sampleRootA, sampleLowFollowerC]

/-- An old root tweet of conversation `c1`. -/
def cascadeRoot : TweetNode :=
  { tweetId := some "10", conversationId := some "c1", isReply := false,
    time := some ⟨none, "300m"⟩, followerSourceText := none,
    replyingTo := none, authorHref := some "/xavier", filtered := false }

/-- A recent reply in conversation `c1`. -/
def cascadeReply : TweetNode :=
  { tweetId := some "11", conversationId := some "c1", isReply := true,
    time := some ⟨none, "5m"⟩, followerSourceText := none,
    replyingTo := none, authorHref := some "/yann", filtered := false }

/-- The reply appears before its root in document order. -/
def cascadeDoc : List TweetNode := [cascadeReply, cascadeRoot]

/-- A non-reply node whose timestamp text "120m" sits exactly at the cutoff
when `now = 100000000` and `maxAge = 120`. -/
def boundaryTweet : TweetNode :=
  { tweetId := none, conversationId := none, isReply := false,
    time := some ⟨none, "120m"⟩, followerSourceText := none,
    replyingTo := none, authorHref := none, filtered := false }

/-- A node with id "7", used against a memory that already holds "7". -/
def rememberedTweet : TweetNode :=
  { tweetId := some "7", conversationId := none, isReply := false,
    time := some ⟨none, "5m"⟩, followerSourceText := some "9M Followers",
    replyingTo := none, authorHref := some "/dana", filtered := false }

/-- Memory that already records id "7" as filtered. -/
def rememberedState : EngState := ⟨[], ["7"], ⟨0, 0, 0⟩⟩

/-- A node for which no follower-count source resolves. -/
def noCountTweet : TweetNode :=
  { tweetId := some "8", conversationId := none, isReply := false,
    time := some ⟨none, "5m"⟩, followerSourceText := none,
    replyingTo := none, authorHref := some "/erin", filtered := false }

/-- A tweet node whose only status link is its own permalink (the timestamp
anchor), outside any caret or card region. -/
def selfLinkNode : TweetDom :=
  ⟨none, none, none, none, none, [⟨"/alice/status/123", false, false⟩]⟩

/-- A tweet node with status links inside a caret region and a card region
before a plain one. -/
def skipLinksNode : TweetDom :=
  ⟨none, none, none, none, none,
    [⟨"/x/status/999", true, false⟩, ⟨"/y/status/456", false, true⟩,
      ⟨"/z/status/789", false, false⟩]⟩

/-- A stored record whose `maxAge` is the truthy non-numeric string "abc". -/
def strMaxAgeStorage : StorageResult := ⟨.strV "abc", .undef, .undef, .undef⟩

/-- A stored record with malformed values in every field. -/
def junkStorage : StorageResult := ⟨.numV 0, .strV "x", .nullV, .strV "y"⟩

/-! ## Helper lemmas: JS set operations -/

theorem mem_jsSetAdd_of_mem {x y : String} {s : List String} (h : x ∈ s) :
    x ∈ jsSetAdd y s := by
  unfold jsSetAdd
  split
  · exact h
  · exact List.mem_append_left _ h

theorem mem_jsSetAdd_self (y : String) (s : List String) : y ∈ jsSetAdd y s := by
  unfold jsSetAdd
  split
  · assumption
  · exact List.mem_append_right _ (List.mem_singleton.mpr rfl)

theorem mem_addIfSome_of_mem {x : String} {o : Option String} {s : List String}
    (h : x ∈ s) : x ∈ addIfSome o s := by
  unfold addIfSome
  cases o
  · exact h
  · exact mem_jsSetAdd_of_mem h

theorem mem_addIfSome_self (x : String) (s : List String) :
    x ∈ addIfSome (some x) s := mem_jsSetAdd_self x s

theorem mem_of_mem_jsSetAdd {x y : String} {s : List String}
    (h : x ∈ jsSetAdd y s) : x ∈ s ∨ x = y := by
  unfold jsSetAdd at h
  split at h
  · exact Or.inl h
  · rcases List.mem_append.mp h with h' | h'
    · exact Or.inl h'
    · exact Or.inr (List.mem_singleton.mp h')

theorem mem_of_mem_addIfSome {x : String} {o : Option String} {s : List String}
    (h : x ∈ addIfSome o s) : x ∈ s ∨ o = some x := by
  unfold addIfSome at h
  cases o with
  | none => exact Or.inl h
  | some v =>
    rcases mem_of_mem_jsSetAdd h with h' | h'
    · exact Or.inl h'
    · exact Or.inr (by rw [h'])

theorem jsSetDelete_of_not_mem {x : String} {s : List String} (h : x ∉ s) :
    jsSetDelete x s = s := by
  unfold jsSetDelete
  rw [List.filter_eq_self]
  intro a ha
  simp only [ne_eq, decide_eq_true_eq]
  exact fun h' => h (h' ▸ ha)

theorem mem_of_mem_jsSetDelete {x y : String} {s : List String}
    (h : x ∈ jsSetDelete y s) : x ∈ s := by
  unfold jsSetDelete at h
  exact List.mem_of_mem_filter h

theorem mem_of_mem_delIfSome {x : String} {o : Option String} {s : List String}
    (h : x ∈ delIfSome o s) : x ∈ s := by
  unfold delIfSome at h
  cases o
  · exact h
  · exact mem_of_mem_jsSetDelete h

theorem hasIdFiltered_some_iff (st : EngState) (id : String) :
    hasIdFiltered st (some id) = true ↔ id ∈ st.allFilteredTweets := by
  simp [hasIdFiltered]

/-! ## Helper lemmas: `applyDecision` -/

theorem applyDecision_parents (tweet : TweetNode) (reason : Reason) (st : EngState) :
    (applyDecision tweet reason st).filteredParentIds = st.filteredParentIds := by
  unfold applyDecision
  split <;> rfl

theorem applyDecision_allFiltered_of_ne_shown (tweet : TweetNode) {reason : Reason}
    (st : EngState) (h : reason ≠ Reason.shown) :
    (applyDecision tweet reason st).allFilteredTweets = st.allFilteredTweets := by
  unfold applyDecision
  split
  · next hb => exact absurd (by simpa using hb) h
  · rfl

theorem applyDecision_allFiltered_shown (tweet : TweetNode) (st : EngState) :
    (applyDecision tweet Reason.shown st).allFilteredTweets =
      delIfSome tweet.tweetId st.allFilteredTweets := rfl

/-! ## Helper lemmas: `timeCriterion` -/

theorem timeCriterion_fst (dp : String → Option Int) (now : Int) (cfg : Settings)
    (tweet : TweetNode) (st : EngState) :
    (timeCriterion dp now cfg tweet st).1 = ageFires dp now cfg tweet := by
  unfold timeCriterion ageFires
  repeat' split
  all_goals simp_all

theorem timeCriterion_stats (dp : String → Option Int) (now : Int) (cfg : Settings)
    (tweet : TweetNode) (st : EngState) :
    (timeCriterion dp now cfg tweet st).2.stats = st.stats := by
  unfold timeCriterion
  repeat' split
  all_goals rfl

theorem timeCriterion_snd_of_false (dp : String → Option Int) (now : Int)
    (cfg : Settings) (tweet : TweetNode) (st : EngState)
    (h : (timeCriterion dp now cfg tweet st).1 = false) :
    (timeCriterion dp now cfg tweet st).2 = st := by
  revert h
  unfold timeCriterion
  repeat' split
  all_goals simp

theorem timeCriterion_allFiltered_mono (dp : String → Option Int) (now : Int)
    (cfg : Settings) (tweet : TweetNode) (st : EngState) {x : String}
    (h : x ∈ st.allFilteredTweets) :
    x ∈ (timeCriterion dp now cfg tweet st).2.allFilteredTweets := by
  unfold timeCriterion
  repeat' split
  all_goals first | exact h | exact mem_addIfSome_of_mem h

theorem timeCriterion_parents_mono (dp : String → Option Int) (now : Int)
    (cfg : Settings) (tweet : TweetNode) (st : EngState) {x : String}
    (h : x ∈ st.filteredParentIds) :
    x ∈ (timeCriterion dp now cfg tweet st).2.filteredParentIds := by
  unfold timeCriterion
  repeat' split
  all_goals
    first
      | exact h
      | exact mem_addIfSome_of_mem (mem_addIfSome_of_mem h)

theorem timeCriterion_allFiltered_sub (dp : String → Option Int) (now : Int)
    (cfg : Settings) (tweet : TweetNode) (st : EngState) {x : String}
    (h : x ∈ (timeCriterion dp now cfg tweet st).2.allFilteredTweets) :
    x ∈ st.allFilteredTweets ∨ tweet.tweetId = some x := by
  revert h
  unfold timeCriterion
  repeat' split
  all_goals
    first
      | exact fun h => Or.inl h
      | exact fun h => mem_of_mem_addIfSome h

theorem timeCriterion_fired_mem (dp : String → Option Int) (now : Int)
    (cfg : Settings) (tweet : TweetNode) (st : EngState) {id : String}
    (h : (timeCriterion dp now cfg tweet st).1 = true)
    (hid : tweet.tweetId = some id) :
    id ∈ (timeCriterion dp now cfg tweet st).2.allFilteredTweets := by
  revert h
  unfold timeCriterion
  repeat' split
  all_goals simp_all [mem_addIfSome_self]

/-! ## Helper lemmas: `followerCriterion` -/

theorem followerCriterion_fst (cfg : Settings) (tweet : TweetNode) (st : EngState) :
    (followerCriterion cfg tweet st).1 =
      if cfg.followerFilterEnabled
          && (match parseFollowerCount tweet with
              | some followerCount => decide (followerCount < cfg.minFollowers)
              | none => false) then
        Reason.followers
      else Reason.shown := by
  unfold followerCriterion
  repeat' split
  all_goals try simp_all
  all_goals omega

theorem followerCriterion_stats (cfg : Settings) (tweet : TweetNode) (st : EngState) :
    (followerCriterion cfg tweet st).2.stats = st.stats := by
  unfold followerCriterion
  repeat' split
  all_goals rfl

theorem followerCriterion_parents (cfg : Settings) (tweet : TweetNode) (st : EngState) :
    (followerCriterion cfg tweet st).2.filteredParentIds = st.filteredParentIds := by
  unfold followerCriterion
  repeat' split
  all_goals rfl

theorem followerCriterion_snd_of_shown (cfg : Settings) (tweet : TweetNode)
    (st : EngState) (h : (followerCriterion cfg tweet st).1 = Reason.shown) :
    (followerCriterion cfg tweet st).2 = st := by
  revert h
  unfold followerCriterion
  repeat' split
  all_goals simp

theorem followerCriterion_allFiltered_mono (cfg : Settings) (tweet : TweetNode)
    (st : EngState) {x : String} (h : x ∈ st.allFilteredTweets) :
    x ∈ (followerCriterion cfg tweet st).2.allFilteredTweets := by
  unfold followerCriterion
  repeat' split
  all_goals first | exact h | exact mem_addIfSome_of_mem h

theorem followerCriterion_allFiltered_sub (cfg : Settings) (tweet : TweetNode)
    (st : EngState) {x : String}
    (h : x ∈ (followerCriterion cfg tweet st).2.allFilteredTweets) :
    x ∈ st.allFilteredTweets ∨ tweet.tweetId = some x := by
  revert h
  unfold followerCriterion
  repeat' split
  all_goals
    first
      | exact fun h => Or.inl h
      | exact fun h => mem_of_mem_addIfSome h

theorem followerCriterion_ne_shown_mem (cfg : Settings) (tweet : TweetNode)
    (st : EngState) {id : String}
    (h : (followerCriterion cfg tweet st).1 ≠ Reason.shown)
    (hid : tweet.tweetId = some id) :
    id ∈ (followerCriterion cfg tweet st).2.allFilteredTweets := by
  revert h
  unfold followerCriterion
  repeat' split
  all_goals simp_all [mem_addIfSome_self]

theorem followerCriterion_followers_count (cfg : Settings) (tweet : TweetNode)
    (st : EngState) (h : (followerCriterion cfg tweet st).1 = Reason.followers) :
    cfg.followerFilterEnabled = true ∧
      ∃ c, parseFollowerCount tweet = some c ∧ c < cfg.minFollowers := by
  revert h
  unfold followerCriterion
  repeat' split
  all_goals simp_all

/-! ## Helper lemmas: `decideTweet` -/

theorem decideTweet_stats (dp : String → Option Int) (now : Int) (cfg : Settings)
    (doc : List TweetNode) (tweet : TweetNode) (st : EngState) :
    (decideTweet dp now cfg doc tweet st).2.stats = st.stats := by
  unfold decideTweet
  repeat' split
  · rfl
  · rfl
  · exact timeCriterion_stats dp now cfg tweet st
  · rw [followerCriterion_stats, timeCriterion_stats]

theorem decideTweet_prev (dp : String → Option Int) (now : Int) (cfg : Settings)
    (doc : List TweetNode) (tweet : TweetNode) (st : EngState)
    (h : hasIdFiltered st tweet.tweetId = true) :
    decideTweet dp now cfg doc tweet st = (Reason.previouslyFiltered, st) := by
  unfold decideTweet
  simp [h]

theorem decideTweet_shown_state (dp : String → Option Int) (now : Int) (cfg : Settings)
    (doc : List TweetNode) (tweet : TweetNode) (st : EngState)
    (h : (decideTweet dp now cfg doc tweet st).1 = Reason.shown) :
    (decideTweet dp now cfg doc tweet st).2 = st := by
  revert h
  unfold decideTweet
  repeat' split
  · simp
  · simp
  · simp
  · next htr =>
    intro h
    rw [followerCriterion_snd_of_shown _ _ _ h]
    exact timeCriterion_snd_of_false _ _ _ _ _ (by simpa using htr)

theorem decideTweet_shown_not_prev (dp : String → Option Int) (now : Int)
    (cfg : Settings) (doc : List TweetNode) (tweet : TweetNode) (st : EngState)
    (h : (decideTweet dp now cfg doc tweet st).1 = Reason.shown) :
    hasIdFiltered st tweet.tweetId = false := by
  revert h
  unfold decideTweet
  repeat' split
  all_goals simp_all

theorem decideTweet_allFiltered_mono (dp : String → Option Int) (now : Int)
    (cfg : Settings) (doc : List TweetNode) (tweet : TweetNode) (st : EngState)
    {x : String} (h : x ∈ st.allFilteredTweets) :
    x ∈ (decideTweet dp now cfg doc tweet st).2.allFilteredTweets := by
  unfold decideTweet
  repeat' split
  · exact h
  · exact mem_addIfSome_of_mem h
  · exact timeCriterion_allFiltered_mono dp now cfg tweet st h
  · exact followerCriterion_allFiltered_mono _ _ _
      (timeCriterion_allFiltered_mono dp now cfg tweet st h)

theorem decideTweet_parents_mono (dp : String → Option Int) (now : Int)
    (cfg : Settings) (doc : List TweetNode) (tweet : TweetNode) (st : EngState)
    {x : String} (h : x ∈ st.filteredParentIds) :
    x ∈ (decideTweet dp now cfg doc tweet st).2.filteredParentIds := by
  unfold decideTweet
  repeat' split
  · exact h
  · exact h
  · exact timeCriterion_parents_mono dp now cfg tweet st h
  · rw [followerCriterion_parents]
    exact timeCriterion_parents_mono dp now cfg tweet st h

theorem decideTweet_allFiltered_sub (dp : String → Option Int) (now : Int)
    (cfg : Settings) (doc : List TweetNode) (tweet : TweetNode) (st : EngState)
    {x : String} (h : x ∈ (decideTweet dp now cfg doc tweet st).2.allFilteredTweets) :
    x ∈ st.allFilteredTweets ∨ tweet.tweetId = some x := by
  revert h
  unfold decideTweet
  repeat' split
  · exact fun h => Or.inl h
  · exact fun h => mem_of_mem_addIfSome h
  · exact fun h => timeCriterion_allFiltered_sub dp now cfg tweet st h
  · intro h
    rcases followerCriterion_allFiltered_sub _ _ _ h with h' | h'
    · exact timeCriterion_allFiltered_sub dp now cfg tweet st h'
    · exact Or.inr h'

theorem decideTweet_ne_shown_mem (dp : String → Option Int) (now : Int)
    (cfg : Settings) (doc : List TweetNode) (tweet : TweetNode) (st : EngState)
    {id : String} (h : (decideTweet dp now cfg doc tweet st).1 ≠ Reason.shown)
    (hid : tweet.tweetId = some id) :
    id ∈ (decideTweet dp now cfg doc tweet st).2.allFilteredTweets := by
  revert h
  unfold decideTweet
  repeat' split
  · next hprev =>
    intro _
    rw [hid] at hprev
    exact (hasIdFiltered_some_iff st id).mp hprev
  · intro _
    rw [hid]
    exact mem_addIfSome_self id _
  · next htr =>
    intro _
    exact timeCriterion_fired_mem dp now cfg tweet st htr hid
  · exact fun h => followerCriterion_ne_shown_mem _ _ _ h hid

/-- The engine's decision coincides with the spec's §4.3 priority list. -/
theorem decideTweet_fst_eq_spec (dp : String → Option Int) (now : Int)
    (cfg : Settings) (doc : List TweetNode) (tweet : TweetNode) (st : EngState) :
    (decideTweet dp now cfg doc tweet st).1 = specDecision dp now cfg doc tweet st := by
  unfold decideTweet specDecision
  rw [timeCriterion_fst]
  by_cases h1 : hasIdFiltered st tweet.tweetId = true
  · simp [h1]
  · by_cases h2 : (tweet.isReply
        && (convFiltered st tweet.conversationId || isReplyingToFilteredUser doc tweet)) = true
    · simp [h1, h2]
    · by_cases h3 : ageFires dp now cfg tweet = true
      · simp [h1, h2, h3]
      · simp [h1, h2, h3, followerCriterion_fst]

/-! ## Helper lemmas: `classifyTweet` -/

theorem classifyTweet_eq (dp : String → Option Int) (now : Int) (cfg : Settings)
    (doc : List TweetNode) (tweet : TweetNode) (st : EngState) :
    classifyTweet dp now cfg doc tweet st =
      ((decideTweet dp now cfg doc tweet st).1,
        applyDecision tweet (decideTweet dp now cfg doc tweet st).1
          (decideTweet dp now cfg doc tweet st).2) := rfl

theorem applyDecision_stats_shown (tweet : TweetNode) (st : EngState) :
    (applyDecision tweet Reason.shown st).stats =
      { st.stats with shown := st.stats.shown + 1 } := rfl

theorem applyDecision_stats_ne_shown (tweet : TweetNode) {reason : Reason}
    (st : EngState) (h : reason ≠ Reason.shown) :
    (applyDecision tweet reason st).stats =
      { st.stats with
        hidden := st.stats.hidden + 1
        hiddenByFollowers :=
          st.stats.hiddenByFollowers + (if reason = Reason.followers then 1 else 0) } := by
  unfold applyDecision
  split
  · next hb => exact absurd (by simpa using hb) h
  · simp

/-- The whole point of the shown-branch delete being a no-op: when a node is
classified `shown`, `allFilteredTweets` is left exactly as it was. -/
theorem classifyTweet_shown_allFiltered (dp : String → Option Int) (now : Int)
    (cfg : Settings) (doc : List TweetNode) (tweet : TweetNode) (st : EngState)
    (h : (classifyTweet dp now cfg doc tweet st).1 = Reason.shown) :
    (classifyTweet dp now cfg doc tweet st).2.allFilteredTweets =
      st.allFilteredTweets := by
  rw [classifyTweet_eq] at h ⊢
  simp only at h
  rw [h, applyDecision_allFiltered_shown,
    decideTweet_shown_state dp now cfg doc tweet st h]
  have hprev := decideTweet_shown_not_prev dp now cfg doc tweet st h
  cases hid : tweet.tweetId with
  | none => rfl
  | some v =>
    rw [hid] at hprev
    have : v ∉ st.allFilteredTweets := by
      intro hmem
      rw [(hasIdFiltered_some_iff st v).mpr hmem] at hprev
      cases hprev
    simpa [delIfSome] using jsSetDelete_of_not_mem this

theorem classifyTweet_allFiltered_mono (dp : String → Option Int) (now : Int)
    (cfg : Settings) (doc : List TweetNode) (tweet : TweetNode) (st : EngState)
    {x : String} (h : x ∈ st.allFilteredTweets) :
    x ∈ (classifyTweet dp now cfg doc tweet st).2.allFilteredTweets := by
  by_cases hs : (classifyTweet dp now cfg doc tweet st).1 = Reason.shown
  · rw [classifyTweet_shown_allFiltered dp now cfg doc tweet st hs]
    exact h
  · rw [classifyTweet_eq]
    simp only
    rw [classifyTweet_eq] at hs
    simp only at hs
    rw [applyDecision_allFiltered_of_ne_shown tweet _ hs]
    exact decideTweet_allFiltered_mono dp now cfg doc tweet st h

theorem classifyTweet_parents (dp : String → Option Int) (now : Int) (cfg : Settings)
    (doc : List TweetNode) (tweet : TweetNode) (st : EngState) :
    (classifyTweet dp now cfg doc tweet st).2.filteredParentIds =
      (decideTweet dp now cfg doc tweet st).2.filteredParentIds := by
  rw [classifyTweet_eq]
  simp only
  rw [applyDecision_parents]

theorem classifyTweet_parents_mono (dp : String → Option Int) (now : Int)
    (cfg : Settings) (doc : List TweetNode) (tweet : TweetNode) (st : EngState)
    {x : String} (h : x ∈ st.filteredParentIds) :
    x ∈ (classifyTweet dp now cfg doc tweet st).2.filteredParentIds := by
  rw [classifyTweet_parents]
  exact decideTweet_parents_mono dp now cfg doc tweet st h

theorem classifyTweet_allFiltered_sub (dp : String → Option Int) (now : Int)
    (cfg : Settings) (doc : List TweetNode) (tweet : TweetNode) (st : EngState)
    {x : String} (h : x ∈ (classifyTweet dp now cfg doc tweet st).2.allFilteredTweets) :
    x ∈ st.allFilteredTweets ∨ tweet.tweetId = some x := by
  rw [classifyTweet_eq] at h
  simp only at h
  by_cases hs : (decideTweet dp now cfg doc tweet st).1 = Reason.shown
  · rw [hs, applyDecision_allFiltered_shown] at h
    have h' := mem_of_mem_delIfSome h
    rw [decideTweet_shown_state dp now cfg doc tweet st hs] at h'
    exact Or.inl h'
  · rw [applyDecision_allFiltered_of_ne_shown tweet _ hs] at h
    exact decideTweet_allFiltered_sub dp now cfg doc tweet st h

theorem classifyTweet_ne_shown_mem (dp : String → Option Int) (now : Int)
    (cfg : Settings) (doc : List TweetNode) (tweet : TweetNode) (st : EngState)
    {id : String} (h : (classifyTweet dp now cfg doc tweet st).1 ≠ Reason.shown)
    (hid : tweet.tweetId = some id) :
    id ∈ (classifyTweet dp now cfg doc tweet st).2.allFilteredTweets := by
  rw [classifyTweet_eq] at h ⊢
  simp only at h ⊢
  rw [applyDecision_allFiltered_of_ne_shown tweet _ h]
  exact decideTweet_ne_shown_mem dp now cfg doc tweet st h hid

/-- Per-node stats bookkeeping: a shown node bumps `shown` only; a filtered
node bumps `hidden`, and `hiddenByFollowers` exactly when the reason is the
follower criterion. -/
theorem classifyTweet_stats (dp : String → Option Int) (now : Int) (cfg : Settings)
    (doc : List TweetNode) (tweet : TweetNode) (st : EngState) :
    (classifyTweet dp now cfg doc tweet st).2.stats =
      (if (classifyTweet dp now cfg doc tweet st).1 = Reason.shown then
        { st.stats with shown := st.stats.shown + 1 }
      else
        { st.stats with
          hidden := st.stats.hidden + 1
          hiddenByFollowers :=
            st.stats.hiddenByFollowers +
              (if (classifyTweet dp now cfg doc tweet st).1 = Reason.followers then 1
               else 0) }) := by
  rw [classifyTweet_eq]
  simp only
  by_cases hs : (decideTweet dp now cfg doc tweet st).1 = Reason.shown
  · rw [if_pos hs, hs, applyDecision_stats_shown, decideTweet_stats]
  · rw [if_neg hs, applyDecision_stats_ne_shown tweet _ hs, decideTweet_stats]

/-! ## Helper lemmas: the seeding phase -/

theorem seedStep_allFiltered_mono (dp : String → Option Int) (now : Int)
    (cfg : Settings) (st : EngState) (tweet : TweetNode) {x : String}
    (h : x ∈ st.allFilteredTweets) :
    x ∈ (seedStep dp now cfg st tweet).allFilteredTweets := by
  unfold seedStep
  repeat' split
  all_goals first | exact h | exact mem_addIfSome_of_mem h

theorem seedStep_parents_mono (dp : String → Option Int) (now : Int)
    (cfg : Settings) (st : EngState) (tweet : TweetNode) {x : String}
    (h : x ∈ st.filteredParentIds) :
    x ∈ (seedStep dp now cfg st tweet).filteredParentIds := by
  unfold seedStep
  repeat' split
  all_goals first | exact h | exact mem_addIfSome_of_mem (mem_addIfSome_of_mem h)

theorem seedStep_allFiltered_sub (dp : String → Option Int) (now : Int)
    (cfg : Settings) (st : EngState) (tweet : TweetNode) {x : String}
    (h : x ∈ (seedStep dp now cfg st tweet).allFilteredTweets) :
    x ∈ st.allFilteredTweets ∨ (tweet.tweetId = some x ∧ tweet.isReply = false) := by
  revert h
  unfold seedStep
  repeat' split
  all_goals intro h
  · rcases mem_of_mem_addIfSome h with h' | h'
    · exact Or.inl h'
    · refine Or.inr ⟨h', ?_⟩
      simp_all
  · exact Or.inl h
  · exact Or.inl h
  · exact Or.inl h

theorem seedStep_stats (dp : String → Option Int) (now : Int) (cfg : Settings)
    (st : EngState) (tweet : TweetNode) :
    (seedStep dp now cfg st tweet).stats = st.stats := by
  unfold seedStep
  repeat' split
  all_goals rfl

/-- Seeding an old non-reply node records its conversation id in
`filteredParentIds`. -/
theorem seedStep_seeds_conv (dp : String → Option Int) (now : Int) (cfg : Settings)
    (st : EngState) (tweet : TweetNode) {te : TimeEl} {c1 : String}
    (h1 : tweet.isReply = false) (h2 : tweet.time = some te)
    (h3 : jsLe (parseTweetTime dp now te) (now - cfg.maxAge * 60000) = true)
    (h4 : tweet.conversationId = some c1) :
    c1 ∈ (seedStep dp now cfg st tweet).filteredParentIds := by
  unfold seedStep
  simp only [h1, h2, h3, h4, Bool.not_false, if_true]
  exact mem_addIfSome_self c1 _

theorem seedOldParents_allFiltered_mono (dp : String → Option Int) (now : Int)
    (cfg : Settings) (doc : List TweetNode) (st : EngState) {x : String}
    (h : x ∈ st.allFilteredTweets) :
    x ∈ (seedOldParents dp now cfg doc st).allFilteredTweets := by
  unfold seedOldParents
  induction doc generalizing st with
  | nil => exact h
  | cons t rest ih =>
    rw [List.foldl_cons]
    exact ih _ (seedStep_allFiltered_mono dp now cfg st t h)

theorem seedOldParents_parents_mono (dp : String → Option Int) (now : Int)
    (cfg : Settings) (doc : List TweetNode) (st : EngState) {x : String}
    (h : x ∈ st.filteredParentIds) :
    x ∈ (seedOldParents dp now cfg doc st).filteredParentIds := by
  unfold seedOldParents
  induction doc generalizing st with
  | nil => exact h
  | cons t rest ih =>
    rw [List.foldl_cons]
    exact ih _ (seedStep_parents_mono dp now cfg st t h)

theorem seedOldParents_allFiltered_sub (dp : String → Option Int) (now : Int)
    (cfg : Settings) (doc : List TweetNode) (st : EngState) {x : String}
    (h : x ∈ (seedOldParents dp now cfg doc st).allFilteredTweets) :
    x ∈ st.allFilteredTweets ∨
      ∃ t ∈ doc, t.tweetId = some x ∧ t.isReply = false := by
  unfold seedOldParents at h
  induction doc generalizing st with
  | nil => exact Or.inl h
  | cons t rest ih =>
    rw [List.foldl_cons] at h
    rcases ih _ h with h' | ⟨t', ht', hid⟩
    · rcases seedStep_allFiltered_sub dp now cfg st t h' with h'' | h''
      · exact Or.inl h''
      · exact Or.inr ⟨t, List.mem_cons_self t rest, h''⟩
    · exact Or.inr ⟨t', List.mem_cons_of_mem t ht', hid⟩

theorem seedOldParents_stats (dp : String → Option Int) (now : Int) (cfg : Settings)
    (doc : List TweetNode) (st : EngState) :
    (seedOldParents dp now cfg doc st).stats = st.stats := by
  unfold seedOldParents
  induction doc generalizing st with
  | nil => rfl
  | cons t rest ih =>
    rw [List.foldl_cons, ih, seedStep_stats]

/-- Phase 1 records the conversation id of every old non-reply node present
in the document. -/
theorem seedOldParents_seeds_conv (dp : String → Option Int) (now : Int)
    (cfg : Settings) (doc : List TweetNode) (st : EngState) {root : TweetNode}
    {te : TimeEl} {c1 : String} (hroot : root ∈ doc) (h1 : root.isReply = false)
    (h2 : root.time = some te)
    (h3 : jsLe (parseTweetTime dp now te) (now - cfg.maxAge * 60000) = true)
    (h4 : root.conversationId = some c1) :
    c1 ∈ (seedOldParents dp now cfg doc st).filteredParentIds := by
  unfold seedOldParents
  induction doc generalizing st with
  | nil => cases hroot
  | cons t rest ih =>
    rw [List.foldl_cons]
    rcases List.mem_cons.mp hroot with h | h
    · rw [h] at h1 h2 h4
      exact seedOldParents_parents_mono dp now cfg rest _
        (seedStep_seeds_conv dp now cfg st t h1 h2 h3 h4)
    · first
        | exact ih h _
        | exact ih _ h

/-! ## Helper lemmas: the classification loop -/

theorem runClassify_cons (dp : String → Option Int) (now : Int) (cfg : Settings)
    (done : List TweetNode) (tweet : TweetNode) (rest : List TweetNode)
    (st : EngState) :
    runClassify dp now cfg done (tweet :: rest) st =
      ((runClassify dp now cfg
          (done ++ [{ tweet with
            filtered :=
              !((classifyTweet dp now cfg (done ++ tweet :: rest) tweet st).1
                  == Reason.shown) }])
          rest (classifyTweet dp now cfg (done ++ tweet :: rest) tweet st).2).1,
        (classifyTweet dp now cfg (done ++ tweet :: rest) tweet st).1 ::
          (runClassify dp now cfg
            (done ++ [{ tweet with
              filtered :=
                !((classifyTweet dp now cfg (done ++ tweet :: rest) tweet st).1
                    == Reason.shown) }])
            rest (classifyTweet dp now cfg (done ++ tweet :: rest) tweet st).2).2.1,
        (runClassify dp now cfg
          (done ++ [{ tweet with
            filtered :=
              !((classifyTweet dp now cfg (done ++ tweet :: rest) tweet st).1
                  == Reason.shown) }])
          rest (classifyTweet dp now cfg (done ++ tweet :: rest) tweet st).2).2.2) := rfl

theorem runClassify_allFiltered_mono (dp : String → Option Int) (now : Int)
    (cfg : Settings) (done todo : List TweetNode) (st : EngState) {x : String}
    (h : x ∈ st.allFilteredTweets) :
    x ∈ (runClassify dp now cfg done todo st).2.2.allFilteredTweets := by
  induction todo generalizing done st with
  | nil => exact h
  | cons t rest ih =>
    rw [runClassify_cons]
    exact ih _ _ (classifyTweet_allFiltered_mono dp now cfg _ t st h)

theorem runClassify_parents_mono (dp : String → Option Int) (now : Int)
    (cfg : Settings) (done todo : List TweetNode) (st : EngState) {x : String}
    (h : x ∈ st.filteredParentIds) :
    x ∈ (runClassify dp now cfg done todo st).2.2.filteredParentIds := by
  induction todo generalizing done st with
  | nil => exact h
  | cons t rest ih =>
    rw [runClassify_cons]
    exact ih _ _ (classifyTweet_parents_mono dp now cfg _ t st h)

theorem runClassify_reasons_length (dp : String → Option Int) (now : Int)
    (cfg : Settings) (done todo : List TweetNode) (st : EngState) :
    (runClassify dp now cfg done todo st).2.1.length = todo.length := by
  induction todo generalizing done st with
  | nil => rfl
  | cons t rest ih =>
    rw [runClassify_cons]
    simp [ih]

theorem runClassify_doc_length (dp : String → Option Int) (now : Int)
    (cfg : Settings) (done todo : List TweetNode) (st : EngState) :
    (runClassify dp now cfg done todo st).1.length = done.length + todo.length := by
  induction todo generalizing done st with
  | nil => rfl
  | cons t rest ih =>
    rw [runClassify_cons]
    rw [ih]
    simp
    omega

theorem runClassify_doc_stable (dp : String → Option Int) (now : Int)
    (cfg : Settings) (done todo : List TweetNode) (st : EngState) {i : Nat}
    (hi : i < done.length) :
    (runClassify dp now cfg done todo st).1.get? i = done.get? i := by
  induction todo generalizing done st with
  | nil => rfl
  | cons t rest ih =>
    rw [runClassify_cons]
    rw [ih _ _ (by simp; omega)]
    exact List.get?_append hi

/-- The classified document's node at a position differs from the input
node only in its class bit. -/
theorem runClassify_doc_get (dp : String → Option Int) (now : Int)
    (cfg : Settings) (done todo : List TweetNode) (st : EngState) {i : Nat}
    (hi : i < todo.length) :
    ∃ b, (runClassify dp now cfg done todo st).1.get? (done.length + i) =
      some { todo.get ⟨i, hi⟩ with filtered := b } := by
  induction todo generalizing done st i with
  | nil => cases hi
  | cons t rest ih =>
    rw [runClassify_cons]
    cases i with
    | zero =>
      refine ⟨!((classifyTweet dp now cfg (done ++ t :: rest) t st).1 == Reason.shown), ?_⟩
      rw [runClassify_doc_stable dp now cfg _ rest _ (by simp)]
      simp
    | succ j =>
      have hj : j < rest.length := by simpa using hi
      obtain ⟨b, hb⟩ := @ih
        (done ++
          [{ t with filtered := !((classifyTweet dp now cfg (done ++ t :: rest) t st).1 == Reason.shown) }])
        ((classifyTweet dp now cfg (done ++ t :: rest) t st).2) j hj
      refine ⟨b, ?_⟩
      have harr : (done ++
          [{ t with filtered := !((classifyTweet dp now cfg (done ++ t :: rest) t st).1 == Reason.shown) }]).length
            = done.length + 1 := by simp
      rw [harr] at hb
      have : done.length + (j + 1) = done.length + 1 + j := by omega
      rw [this]
      simpa using hb

/-- A node whose id is already in `allFilteredTweets` when its turn comes is
decided `previously_filtered`. -/
theorem decideTweet_fst_prev (dp : String → Option Int) (now : Int) (cfg : Settings)
    (doc : List TweetNode) (tweet : TweetNode) (st : EngState) {id : String}
    (hid : tweet.tweetId = some id) (h : id ∈ st.allFilteredTweets) :
    (decideTweet dp now cfg doc tweet st).1 = Reason.previouslyFiltered := by
  have : hasIdFiltered st tweet.tweetId = true := by
    rw [hid]
    exact (hasIdFiltered_some_iff st id).mpr h
  rw [decideTweet_prev dp now cfg doc tweet st this]

/-- A reply node whose conversation id is already in `filteredParentIds`,
and whose own id is not yet remembered, is decided `parent_filtered`. -/
theorem decideTweet_fst_parent (dp : String → Option Int) (now : Int) (cfg : Settings)
    (doc : List TweetNode) (tweet : TweetNode) (st : EngState) {c1 : String}
    (h1 : hasIdFiltered st tweet.tweetId = false) (hr : tweet.isReply = true)
    (hc : tweet.conversationId = some c1) (hmem : c1 ∈ st.filteredParentIds) :
    (decideTweet dp now cfg doc tweet st).1 = Reason.parentFiltered := by
  unfold decideTweet
  have hcf : convFiltered st tweet.conversationId = true := by
    rw [hc]
    simpa [convFiltered] using hmem
  simp [h1, hr, hcf]

theorem runClassify_prev_at (dp : String → Option Int) (now : Int) (cfg : Settings)
    (done todo : List TweetNode) (st : EngState) {i : Nat} (hi : i < todo.length)
    {id : String} (hid : (todo.get ⟨i, hi⟩).tweetId = some id)
    (h : id ∈ st.allFilteredTweets) :
    (runClassify dp now cfg done todo st).2.1.get? i =
      some Reason.previouslyFiltered := by
  induction todo generalizing done st i with
  | nil => cases hi
  | cons t rest ih =>
    rw [runClassify_cons]
    cases i with
    | zero =>
      have : (classifyTweet dp now cfg (done ++ t :: rest) t st).1 =
          Reason.previouslyFiltered := by
        rw [classifyTweet_eq]
        exact decideTweet_fst_prev dp now cfg _ t st hid h
      simp [this]
    | succ j =>
      have hj : j < rest.length := by simpa using hi
      have hid' : (rest.get ⟨j, hj⟩).tweetId = some id := by simpa using hid
      simpa using ih _ _ hj hid'
        (classifyTweet_allFiltered_mono dp now cfg _ t st h)

theorem runClassify_ne_shown_mem_at (dp : String → Option Int) (now : Int)
    (cfg : Settings) (done todo : List TweetNode) (st : EngState) {i : Nat}
    (hi : i < todo.length) {id : String}
    (hid : (todo.get ⟨i, hi⟩).tweetId = some id) {d : Reason}
    (hd : (runClassify dp now cfg done todo st).2.1.get? i = some d)
    (hne : d ≠ Reason.shown) :
    id ∈ (runClassify dp now cfg done todo st).2.2.allFilteredTweets := by
  induction todo generalizing done st i with
  | nil => cases hi
  | cons t rest ih =>
    rw [runClassify_cons] at hd ⊢
    cases i with
    | zero =>
      simp only [List.get?_cons_zero, Option.some.injEq] at hd
      subst hd
      exact runClassify_allFiltered_mono dp now cfg _ rest _
        (classifyTweet_ne_shown_mem dp now cfg _ t st hne hid)
    | succ j =>
      have hj : j < rest.length := by simpa using hi
      have hid' : (rest.get ⟨j, hj⟩).tweetId = some id := by simpa using hid
      simp only [List.get?_cons_succ] at hd
      exact ih _ _ hj hid' hd

/-- Cascade at the loop level: with `c1` already in `filteredParentIds`, a
reply node with conversation id `c1` whose own id is fresh (not yet
remembered, and carried by no other node of the batch) is decided
`parent_filtered` at its turn. -/
theorem runClassify_parent_at (dp : String → Option Int) (now : Int) (cfg : Settings)
    (done todo : List TweetNode) (st : EngState) {i : Nat} (hi : i < todo.length)
    {c1 : String} (hc1 : c1 ∈ st.filteredParentIds)
    (hr : (todo.get ⟨i, hi⟩).isReply = true)
    (hcv : (todo.get ⟨i, hi⟩).conversationId = some c1)
    (hfresh : ∀ rid, (todo.get ⟨i, hi⟩).tweetId = some rid →
      rid ∉ st.allFilteredTweets ∧
        ∀ j (hj : j < todo.length), j ≠ i → (todo.get ⟨j, hj⟩).tweetId ≠ some rid) :
    (runClassify dp now cfg done todo st).2.1.get? i = some Reason.parentFiltered := by
  induction todo generalizing done st i with
  | nil => cases hi
  | cons t rest ih =>
    rw [runClassify_cons]
    cases i with
    | zero =>
      have ht0 : (t :: rest).get ⟨0, hi⟩ = t := rfl
      rw [ht0] at hr hcv hfresh
      have hno : hasIdFiltered st t.tweetId = false := by
        cases ht : t.tweetId with
        | none => simp [hasIdFiltered]
        | some rid =>
          have := (hfresh rid ht).1
          simpa [hasIdFiltered] using this
      have : (classifyTweet dp now cfg (done ++ t :: rest) t st).1 =
          Reason.parentFiltered := by
        rw [classifyTweet_eq]
        exact decideTweet_fst_parent dp now cfg _ t st hno hr hcv hc1
      simp [this]
    | succ j =>
      have hj : j < rest.length := by simpa using hi
      have hr' : (rest.get ⟨j, hj⟩).isReply = true := by simpa using hr
      have hcv' : (rest.get ⟨j, hj⟩).conversationId = some c1 := by simpa using hcv
      have hc1' : c1 ∈ (classifyTweet dp now cfg (done ++ t :: rest) t st).2.filteredParentIds :=
        classifyTweet_parents_mono dp now cfg _ t st hc1
      have hfresh' : ∀ rid, (rest.get ⟨j, hj⟩).tweetId = some rid →
          rid ∉ (classifyTweet dp now cfg (done ++ t :: rest) t st).2.allFilteredTweets ∧
            ∀ j' (hj' : j' < rest.length), j' ≠ j →
              (rest.get ⟨j', hj'⟩).tweetId ≠ some rid := by
        intro rid hrid
        have hrid' : ((t :: rest).get ⟨j + 1, hi⟩).tweetId = some rid := by simpa using hrid
        obtain ⟨hnot, hothers⟩ := hfresh rid hrid'
        constructor
        · intro hmem
          rcases classifyTweet_allFiltered_sub dp now cfg _ t st hmem with h' | h'
          · exact hnot h'
          · exact hothers 0 (by simp) (by simp) (by simpa using h')
        · intro j' hj' hne
          have : (j' + 1) ≠ j + 1 := by omega
          have := hothers (j' + 1) (by simpa using Nat.succ_lt_succ hj') this
          simpa using this
      simpa using ih _ _ hj hc1' hr' hcv' hfresh'

/-- Counter bookkeeping at the loop level: processing `todo` adds exactly
`todo.length` to `shown + hidden`, and `hiddenByFollowers` grows at most as
fast as `hidden`. -/
theorem runClassify_stats (dp : String → Option Int) (now : Int) (cfg : Settings)
    (done todo : List TweetNode) (st : EngState) :
    (runClassify dp now cfg done todo st).2.2.stats.shown +
        (runClassify dp now cfg done todo st).2.2.stats.hidden =
      st.stats.shown + st.stats.hidden + todo.length ∧
    (runClassify dp now cfg done todo st).2.2.stats.hiddenByFollowers +
        st.stats.hidden ≤
      st.stats.hiddenByFollowers +
        (runClassify dp now cfg done todo st).2.2.stats.hidden := by
  induction todo generalizing done st with
  | nil => simp [runClassify]
  | cons t rest ih =>
    rw [runClassify_cons]
    dsimp only
    have hstep := classifyTweet_stats dp now cfg (done ++ t :: rest) t st
    obtain ⟨ih1, ih2⟩ := ih
      (done ++ [{ t with
        filtered := !((classifyTweet dp now cfg (done ++ t :: rest) t st).1 == Reason.shown) }])
      ((classifyTweet dp now cfg (done ++ t :: rest) t st).2)
    rw [hstep] at ih1 ih2
    by_cases hs : (classifyTweet dp now cfg (done ++ t :: rest) t st).1 = Reason.shown
    · rw [if_pos hs] at ih1 ih2
      simp only at ih1 ih2
      constructor
      · simp only [List.length_cons]
        omega
      · omega
    · rw [if_neg hs] at ih1 ih2
      simp only at ih1 ih2
      by_cases hf : (classifyTweet dp now cfg (done ++ t :: rest) t st).1 = Reason.followers
      · rw [if_pos hf] at ih2
        constructor
        · simp only [List.length_cons]
          omega
        · omega
      · rw [if_neg hf] at ih2
        constructor
        · simp only [List.length_cons]
          omega
        · omega

/-! ## Helper lemmas: the passes -/

theorem filterTweets_state (dp : String → Option Int) (now : Int) (cfg : Settings)
    (doc : List TweetNode) (st₀ : EngState) :
    (filterTweets dp now cfg doc st₀).state =
      (runClassify dp now cfg [] doc
        (seedOldParents dp now cfg doc { st₀ with stats := ⟨0, 0, 0⟩ })).2.2 := rfl

theorem filterTweets_decisions (dp : String → Option Int) (now : Int) (cfg : Settings)
    (doc : List TweetNode) (st₀ : EngState) :
    (filterTweets dp now cfg doc st₀).decisions =
      (runClassify dp now cfg [] doc
        (seedOldParents dp now cfg doc { st₀ with stats := ⟨0, 0, 0⟩ })).2.1 := rfl

theorem filterTweets_doc (dp : String → Option Int) (now : Int) (cfg : Settings)
    (doc : List TweetNode) (st₀ : EngState) :
    (filterTweets dp now cfg doc st₀).doc =
      (runClassify dp now cfg [] doc
        (seedOldParents dp now cfg doc { st₀ with stats := ⟨0, 0, 0⟩ })).1 := rfl

theorem processTweetsImmediately_state (dp : String → Option Int) (now : Int)
    (cfg : Settings) (tweets : List TweetNode) (st : EngState) :
    (processTweetsImmediately dp now cfg tweets st).state =
      (runClassify dp now cfg [] tweets st).2.2 := rfl

/-- The spec-side decision reports the follower reason only for an enabled
filter and a resolved below-threshold count. -/
theorem specDecision_followers_count (dp : String → Option Int) (now : Int)
    (cfg : Settings) (doc : List TweetNode) (tweet : TweetNode) (st : EngState)
    (h : specDecision dp now cfg doc tweet st = Reason.followers) :
    cfg.followerFilterEnabled = true ∧
      ∃ c, parseFollowerCount tweet = some c ∧ c < cfg.minFollowers := by
  revert h
  unfold specDecision
  repeat' split
  all_goals cases hpc : parseFollowerCount tweet <;> simp_all

/-! ## The claims -/

/-- C6: Follower-count text parsing.  "2.5K Followers" parses to 2500,
"1M Followers" to 1000000, "950 Followers" to 950; the k/m/b suffix
multipliers are 10^3/10^6/10^9 and case-insensitive, with the product
floored; text with no numeric-plus-unit match yields null (`none`), never
zero; and a null count never makes the engine report the follower reason. -/
theorem replyGuy_C6_follower_parsing :
    extractFollowerCountFromText "2.5K Followers" = some 2500 ∧
    extractFollowerCountFromText "1M Followers" = some 1000000 ∧
    extractFollowerCountFromText "950 Followers" = some 950 ∧
    extractFollowerCountFromText "2.5k Followers" = some 2500 ∧
    extractFollowerCountFromText "12m Followers" = some 12000000 ∧
    extractFollowerCountFromText "3B Followers" = some 3000000000 ∧
    extractFollowerCountFromText "3b Followers" = some 3000000000 ∧
    extractFollowerCountFromText "Followers of fashion" = none ∧
    extractFollowerCountFromText "" = none ∧
    (∀ dp now cfg doc tweet st, parseFollowerCount tweet = none →
      (classifyTweet dp now cfg doc tweet st).1 ≠ Reason.followers) := by
  refine ⟨by decide, by decide, by decide, by decide, by decide, by decide, by decide,
    by decide, by decide, ?_⟩
  intro dp now cfg doc tweet st hnone hfoll
  rw [classifyTweet_eq] at hfoll
  simp only at hfoll
  rw [decideTweet_fst_eq_spec] at hfoll
  obtain ⟨-, c, hc, -⟩ := specDecision_followers_count dp now cfg doc tweet st hfoll
  rw [hnone] at hc
  cases hc

/-- Witness for C6: the final conjunct applied to a concrete node with no
resolvable follower-count source. -/
theorem replyGuy_C6_follower_parsing_witness :
    (classifyTweet noDateParse 100000000 sampleSettings [] noCountTweet
        emptyState).1 ≠ Reason.followers := by
  have h := replyGuy_C6_follower_parsing
  exact h.2.2.2.2.2.2.2.2.2 noDateParse 100000000 sampleSettings [] noCountTweet
    emptyState rfl

/-- C7 counterexample: the text "march" has no machine-readable attribute
and is not relative-time text, yet because it contains the letter `m` it is
routed to the minutes branch, where `parseInt` yields NaN: the result is an
Invalid Date (`none`), not the host's absolute parse (which here would
succeed with 500) and not the maximally old instant; and the age comparison
on it is false, so the entity is not filtered by age — contradicting the
claim that unrecognised text falls back to a best-effort absolute date or a
guaranteed-filtered instant. -/
theorem replyGuy_C7_counterexample :
    parseTweetTime someDateParse 100000000 ⟨none, "march"⟩ = none ∧
    parseTweetTime someDateParse 100000000 ⟨none, "march"⟩ ≠ someDateParse "march" ∧
    parseTweetTime someDateParse 100000000 ⟨none, "march"⟩ ≠ some 0 ∧
    jsLe (parseTweetTime someDateParse 100000000 ⟨none, "march"⟩)
      (100000000 - 120 * 60000) = false := by
  refine ⟨by decide, by decide, by decide, by decide⟩

/-- C7 amended: without a `datetime` attribute, the trimmed lowercased text
is dispatched by substring containment, in order: text containing "now"
maps to `now`; else text containing `m`/`h`/`d`/`s` (in that order) is
treated as relative with `parseInt`, so that a failed `parseInt` yields an
Invalid Date on which the age criterion never fires; only text containing
none of those letters is given to the host date parser, and on its failure
the result is the epoch, on which the age criterion is guaranteed to fire
whenever the cutoff is non-negative. -/
theorem replyGuy_C7_amended (dp : String → Option Int) (now : Int) (el : TimeEl)
    (h0 : el.datetime = none) :
    (strIncludes (jsLower (jsTrim el.text)) "now" = true →
      parseTweetTime dp now el = some now) ∧
    (strIncludes (jsLower (jsTrim el.text)) "now" = false →
      strIncludes (jsLower (jsTrim el.text)) "m" = true →
      parseTweetTime dp now el =
        (jsParseInt (jsLower (jsTrim el.text))).map (fun minutes => now - minutes * 60000)) ∧
    (strIncludes (jsLower (jsTrim el.text)) "now" = false →
      strIncludes (jsLower (jsTrim el.text)) "m" = false →
      strIncludes (jsLower (jsTrim el.text)) "h" = true →
      parseTweetTime dp now el =
        (jsParseInt (jsLower (jsTrim el.text))).map (fun hours => now - hours * 3600000)) ∧
    (strIncludes (jsLower (jsTrim el.text)) "now" = false →
      strIncludes (jsLower (jsTrim el.text)) "m" = false →
      strIncludes (jsLower (jsTrim el.text)) "h" = false →
      strIncludes (jsLower (jsTrim el.text)) "d" = true →
      parseTweetTime dp now el =
        (jsParseInt (jsLower (jsTrim el.text))).map (fun days => now - days * 86400000)) ∧
    (strIncludes (jsLower (jsTrim el.text)) "now" = false →
      strIncludes (jsLower (jsTrim el.text)) "m" = false →
      strIncludes (jsLower (jsTrim el.text)) "h" = false →
      strIncludes (jsLower (jsTrim el.text)) "d" = false →
      strIncludes (jsLower (jsTrim el.text)) "s" = true →
      parseTweetTime dp now el =
        (jsParseInt (jsLower (jsTrim el.text))).map (fun seconds => now - seconds * 1000)) ∧
    (strIncludes (jsLower (jsTrim el.text)) "now" = false →
      strIncludes (jsLower (jsTrim el.text)) "m" = false →
      strIncludes (jsLower (jsTrim el.text)) "h" = false →
      strIncludes (jsLower (jsTrim el.text)) "d" = false →
      strIncludes (jsLower (jsTrim el.text)) "s" = false →
      parseTweetTime dp now el =
        (match dp (jsLower (jsTrim el.text)) with
         | some parsedDate => some parsedDate
         | none => some 0)) ∧
    (∀ cfg : Settings, ∀ tweet : TweetNode, tweet.time = some el →
      strIncludes (jsLower (jsTrim el.text)) "now" = false →
      strIncludes (jsLower (jsTrim el.text)) "m" = true →
      jsParseInt (jsLower (jsTrim el.text)) = none →
      ageFires dp now cfg tweet = false) ∧
    (∀ cfg : Settings, ∀ tweet : TweetNode, tweet.time = some el →
      strIncludes (jsLower (jsTrim el.text)) "now" = false →
      strIncludes (jsLower (jsTrim el.text)) "m" = false →
      strIncludes (jsLower (jsTrim el.text)) "h" = false →
      strIncludes (jsLower (jsTrim el.text)) "d" = false →
      strIncludes (jsLower (jsTrim el.text)) "s" = false →
      dp (jsLower (jsTrim el.text)) = none →
      0 ≤ now - cfg.maxAge * 60000 →
      ageFires dp now cfg tweet = true) := by
  refine ⟨?_, ?_, ?_, ?_, ?_, ?_, ?_, ?_⟩
  · intro h1
    unfold parseTweetTime
    rw [h0]
    simp [h1]
  · intro h1 h2
    unfold parseTweetTime
    rw [h0]
    simp [h1, h2]
  · intro h1 h2 h3
    unfold parseTweetTime
    rw [h0]
    simp [h1, h2, h3]
  · intro h1 h2 h3 h4
    unfold parseTweetTime
    rw [h0]
    simp [h1, h2, h3, h4]
  · intro h1 h2 h3 h4 h5
    unfold parseTweetTime
    rw [h0]
    simp [h1, h2, h3, h4, h5]
  · intro h1 h2 h3 h4 h5
    unfold parseTweetTime
    rw [h0]
    simp [h1, h2, h3, h4, h5]
  · intro cfg tweet htime h1 h2 hint
    unfold ageFires
    rw [htime]
    dsimp only
    unfold parseTweetTime
    rw [h0]
    simp [h1, h2, hint, jsLe]
  · intro cfg tweet htime h1 h2 h3 h4 h5 hdp hcut
    unfold ageFires
    rw [htime]
    dsimp only
    unfold parseTweetTime
    rw [h0]
    simp [h1, h2, h3, h4, h5, hdp, jsLe, hcut]

/-- Witness for C7 amended: the hours branch and the epoch fallback at
concrete inputs. -/
theorem replyGuy_C7_amended_witness :
    parseTweetTime noDateParse 100000000 ⟨none, "5h"⟩ =
      some (100000000 - 5 * 3600000) ∧
    parseTweetTime noDateParse 100000000 ⟨none, "xyz"⟩ = some 0 := by
  constructor
  · have h := replyGuy_C7_amended noDateParse 100000000 ⟨none, "5h"⟩ rfl
    rw [h.2.2.1 (by decide) (by decide) (by decide)]
    decide
  · have h := replyGuy_C7_amended noDateParse 100000000 ⟨none, "xyz"⟩ rfl
    rw [h.2.2.2.2.2.1 (by decide) (by decide) (by decide) (by decide) (by decide)]
    decide

/-- C8: a tweet node whose only status permalink is its own (the timestamp
anchor, outside any caret/menu or card region) gets its own identity back
as its conversation id from resolution method (b): the code's comment says
links to the tweet itself are avoided, but only the caret/card context is
checked, never the id.  The skipping of caret/card permalinks does hold. -/
theorem replyGuy_C8_self_conversation_id :
    getTweetId selfLinkNode = some "123" ∧
    getTweetConversationIdM12 selfLinkNode = some "123" ∧
    getTweetConversationIdM12 selfLinkNode = getTweetId selfLinkNode ∧
    getTweetConversationIdM12 skipLinksNode = some "789" := by
  refine ⟨by decide, by decide, by decide, by decide⟩

/-- C9 counterexample: a stored `maxAge` holding the truthy, non-numeric
string "abc" passes the `if (result.maxAge)` truthiness guard and replaces
the numeric default 120 with a non-numeric value — contradicting the claim
that a malformed record never replaces a default with a non-numeric
threshold. -/
theorem replyGuy_C9_counterexample :
    (loadStoredSettings defaultSettings strMaxAgeStorage).maxAge = .strV "abc" ∧
    JSVal.isNumber (.strV "abc") = false ∧
    JSVal.truthy (.strV "abc") = true := by
  refine ⟨by decide, by decide, by decide⟩

/-- C9 amended: a falsy stored `maxAge` (zero included) keeps the default
120; `enabled` and `followerFilterEnabled` are taken only when boolean, and
`minFollowers` only when a number, otherwise their defaults survive — but
the `maxAge` guard is truthiness, not a type check, so any truthy stored
value (numeric or not) replaces the default. -/
theorem replyGuy_C9_amended (r : StorageResult) :
    (JSVal.truthy r.maxAge = false →
      (loadStoredSettings defaultSettings r).maxAge = .numV 120) ∧
    (JSVal.truthy r.maxAge = true →
      (loadStoredSettings defaultSettings r).maxAge = r.maxAge) ∧
    (JSVal.isBoolean r.enabled = false →
      (loadStoredSettings defaultSettings r).enabled = .boolV true) ∧
    (JSVal.isBoolean r.enabled = true →
      (loadStoredSettings defaultSettings r).enabled = r.enabled) ∧
    (JSVal.isBoolean r.followerFilterEnabled = false →
      (loadStoredSettings defaultSettings r).followerFilterEnabled = .boolV false) ∧
    (JSVal.isBoolean r.followerFilterEnabled = true →
      (loadStoredSettings defaultSettings r).followerFilterEnabled =
        r.followerFilterEnabled) ∧
    (JSVal.isNumber r.minFollowers = false →
      (loadStoredSettings defaultSettings r).minFollowers = .numV 2000) ∧
    (JSVal.isNumber r.minFollowers = true →
      (loadStoredSettings defaultSettings r).minFollowers = r.minFollowers) := by
  unfold loadStoredSettings defaultSettings
  refine ⟨?_, ?_, ?_, ?_, ?_, ?_, ?_, ?_⟩ <;> intro h <;> simp [h]

/-- Witness for C9 amended: a record with malformed values in every field
leaves every default in place. -/
theorem replyGuy_C9_amended_witness :
    (loadStoredSettings defaultSettings junkStorage).maxAge = .numV 120 ∧
    (loadStoredSettings defaultSettings junkStorage).enabled = .boolV true ∧
    (loadStoredSettings defaultSettings junkStorage).followerFilterEnabled =
      .boolV false ∧
    (loadStoredSettings defaultSettings junkStorage).minFollowers = .numV 2000 := by
  have h := replyGuy_C9_amended junkStorage
  exact ⟨h.1 (by decide), h.2.2.1 (by decide), h.2.2.2.2.1 (by decide),
    h.2.2.2.2.2.2.1 (by decide)⟩

/-- C1: Session monotonicity of the filtered set.  (a) A node whose resolved
identity is in `allFilteredTweets` at the moment it is classified is decided
`previously_filtered`; (b)/(c) neither a full `filterTweets` pass nor an
incremental `processTweetsImmediately` pass ever removes an identity from
`allFilteredTweets`; (d) the delete in the shown branch is a no-op: a node
classified shown leaves `allFilteredTweets` exactly unchanged (its id cannot
be in the set, or the previously-filtered check would have fired). -/
theorem replyGuy_C1_filteredIds_monotonic :
    (∀ (dp : String → Option Int) (now : Int) (cfg : Settings)
        (doc : List TweetNode) (tweet : TweetNode) (st : EngState) (id : String),
      tweet.tweetId = some id → id ∈ st.allFilteredTweets →
      (classifyTweet dp now cfg doc tweet st).1 = Reason.previouslyFiltered) ∧
    (∀ (dp : String → Option Int) (now : Int) (cfg : Settings)
        (doc : List TweetNode) (st₀ : EngState) (x : String),
      x ∈ st₀.allFilteredTweets →
      x ∈ (filterTweets dp now cfg doc st₀).state.allFilteredTweets) ∧
    (∀ (dp : String → Option Int) (now : Int) (cfg : Settings)
        (tweets : List TweetNode) (st : EngState) (x : String),
      x ∈ st.allFilteredTweets →
      x ∈ (processTweetsImmediately dp now cfg tweets st).state.allFilteredTweets) ∧
    (∀ (dp : String → Option Int) (now : Int) (cfg : Settings)
        (doc : List TweetNode) (tweet : TweetNode) (st : EngState),
      (classifyTweet dp now cfg doc tweet st).1 = Reason.shown →
      (classifyTweet dp now cfg doc tweet st).2.allFilteredTweets =
        st.allFilteredTweets) := by
  refine ⟨?_, ?_, ?_, ?_⟩
  · intro dp now cfg doc tweet st id hid hmem
    rw [classifyTweet_eq]
    exact decideTweet_fst_prev dp now cfg doc tweet st hid hmem
  · intro dp now cfg doc st₀ x hx
    rw [filterTweets_state]
    exact runClassify_allFiltered_mono dp now cfg [] doc _
      (seedOldParents_allFiltered_mono dp now cfg doc _ hx)
  · intro dp now cfg tweets st x hx
    rw [processTweetsImmediately_state]
    exact runClassify_allFiltered_mono dp now cfg [] tweets st hx
  · intro dp now cfg doc tweet st h
    exact classifyTweet_shown_allFiltered dp now cfg doc tweet st h

/-- Witness for C1 at concrete inputs: a node with id "7" against a memory
holding "7" is re-classified previously-filtered; an id survives a full pass
over the sample document; and a shown classification leaves the set
untouched. -/
theorem replyGuy_C1_filteredIds_monotonic_witness :
    (classifyTweet noDateParse 100000000 sampleSettings [] rememberedTweet
        rememberedState).1 = Reason.previouslyFiltered ∧
    "7" ∈ (filterTweets noDateParse 100000000 sampleSettings sampleDoc
        rememberedState).state.allFilteredTweets ∧
    (classifyTweet noDateParse 100000000 sampleSettings [] sampleReplyB
        emptyState).2.allFilteredTweets = emptyState.allFilteredTweets := by
  have h := replyGuy_C1_filteredIds_monotonic
  refine ⟨?_, ?_, ?_⟩
  · exact h.1 noDateParse 100000000 sampleSettings [] rememberedTweet
      rememberedState "7" rfl (by decide)
  · exact h.2.1 noDateParse 100000000 sampleSettings sampleDoc rememberedState
      "7" (by decide)
  · exact h.2.2.2 noDateParse 100000000 sampleSettings [] sampleReplyB emptyState
      (by decide)

/-- C2: Strict priority order.  The engine's decision (shared verbatim by
`filterTweets` and `processTweetsImmediately` through `classifyTweet`)
equals the spec's first-match priority list — previously-filtered, then the
reply-with-filtered-parent cascade, then age, then followers, else shown —
and when any higher-priority criterion fires, the decision is independent
of the node's follower-count source, so the follower evaluator is never
consulted for such a node. -/
theorem replyGuy_C2_priority_order (dp : String → Option Int) (now : Int)
    (cfg : Settings) (doc : List TweetNode) (tweet : TweetNode) (st : EngState) :
    (classifyTweet dp now cfg doc tweet st).1 = specDecision dp now cfg doc tweet st ∧
    (∀ s' : Option String,
      (hasIdFiltered st tweet.tweetId = true ∨
        (tweet.isReply
          && (convFiltered st tweet.conversationId
              || isReplyingToFilteredUser doc tweet)) = true ∨
        ageFires dp now cfg tweet = true) →
      (classifyTweet dp now cfg doc
          { tweet with followerSourceText := s' } st).1 =
        (classifyTweet dp now cfg doc tweet st).1) := by
  constructor
  · rw [classifyTweet_eq]
    exact decideTweet_fst_eq_spec dp now cfg doc tweet st
  · intro s' h
    rw [classifyTweet_eq, classifyTweet_eq]
    simp only
    rw [decideTweet_fst_eq_spec, decideTweet_fst_eq_spec]
    unfold specDecision
    rcases h with h | h | h
    · simp only [hasIdFiltered] at h ⊢
      simp [h]
    · simp only [convFiltered, isReplyingToFilteredUser] at h ⊢
      simp [h, hasIdFiltered]
    · simp only [ageFires] at h ⊢
      simp [h, hasIdFiltered, convFiltered, isReplyingToFilteredUser]

/-- Witness for C2: on a node already in memory, swapping in a
below-threshold follower source changes nothing. -/
theorem replyGuy_C2_priority_order_witness :
    (classifyTweet noDateParse 100000000 sampleSettings [] rememberedTweet
        rememberedState).1 = specDecision noDateParse 100000000 sampleSettings []
        rememberedTweet rememberedState ∧
    (classifyTweet noDateParse 100000000 sampleSettings []
        { rememberedTweet with followerSourceText := some "1 Followers" }
        rememberedState).1 =
      (classifyTweet noDateParse 100000000 sampleSettings [] rememberedTweet
        rememberedState).1 := by
  have h := replyGuy_C2_priority_order noDateParse 100000000 sampleSettings []
    rememberedTweet rememberedState
  exact ⟨h.1, h.2 (some "1 Followers") (Or.inl (by decide))⟩

/-- C5: Inclusive age boundary.  For a node with a resolvable timestamp, the
age criterion fires exactly when the parsed instant is less than or equal to
`now - maxAge*60000`; and a node sitting exactly at the cutoff, with no
higher-priority rule applying, is classified `time` (filtered, not
shown). -/
theorem replyGuy_C5_inclusive_boundary (dp : String → Option Int) (now : Int)
    (cfg : Settings) (doc : List TweetNode) (tweet : TweetNode) (st : EngState)
    (te : TimeEl) (ts : Int) (h1 : tweet.time = some te)
    (h2 : parseTweetTime dp now te = some ts) :
    (ageFires dp now cfg tweet = true ↔ ts ≤ now - cfg.maxAge * 60000) ∧
    (ts = now - cfg.maxAge * 60000 →
      hasIdFiltered st tweet.tweetId = false →
      (tweet.isReply
        && (convFiltered st tweet.conversationId
            || isReplyingToFilteredUser doc tweet)) = false →
      (classifyTweet dp now cfg doc tweet st).1 = Reason.time) := by
  have hage : ageFires dp now cfg tweet = true ↔ ts ≤ now - cfg.maxAge * 60000 := by
    unfold ageFires
    rw [h1]
    dsimp only
    rw [h2]
    simp [jsLe]
  refine ⟨hage, ?_⟩
  intro h3 h4 h5
  rw [classifyTweet_eq]
  simp only
  rw [decideTweet_fst_eq_spec]
  unfold specDecision
  rw [h4, h5]
  have : ageFires dp now cfg tweet = true := hage.mpr (le_of_eq h3)
  simp [this]

/-- Witness for C5: with `now = 100000000` and `maxAge = 120`, a node whose
timestamp text is "120m" parses to exactly the cutoff and is classified
`time`. -/
theorem replyGuy_C5_inclusive_boundary_witness :
    (ageFires noDateParse 100000000 sampleSettings boundaryTweet = true ↔
      (100000000 - 120 * 60000 : Int) ≤ 100000000 - 120 * 60000) ∧
    (classifyTweet noDateParse 100000000 sampleSettings [] boundaryTweet
        emptyState).1 = Reason.time := by
  have h := replyGuy_C5_inclusive_boundary noDateParse 100000000 sampleSettings []
    boundaryTweet emptyState ⟨none, "120m"⟩ (100000000 - 120 * 60000) rfl (by decide)
  exact ⟨h.1, h.2 rfl (by decide) (by decide)⟩

/-- C3: Cascade correctness of the full pass.  If some non-reply node of the
document has a timestamp at or past the cutoff and conversation id `c1`,
then any reply node of the same pass with conversation id `c1`, whose own
identity is not already remembered (neither in the incoming memory nor
carried by another node of the document), is classified `parent_filtered`
regardless of its own timestamp and of document order — phase 1 seeds
`filteredParentIds` from all non-reply nodes before any node is
classified. -/
theorem replyGuy_C3_cascade (dp : String → Option Int) (now : Int) (cfg : Settings)
    (doc : List TweetNode) (st₀ : EngState) {root : TweetNode} {te : TimeEl}
    {c1 : String} {i : Nat} (hi : i < doc.length) (hroot : root ∈ doc)
    (h1 : root.isReply = false) (h2 : root.time = some te)
    (h3 : jsLe (parseTweetTime dp now te) (now - cfg.maxAge * 60000) = true)
    (h4 : root.conversationId = some c1)
    (h5 : (doc.get ⟨i, hi⟩).isReply = true)
    (h6 : (doc.get ⟨i, hi⟩).conversationId = some c1)
    (h7 : ∀ rid, (doc.get ⟨i, hi⟩).tweetId = some rid →
      rid ∉ st₀.allFilteredTweets ∧
        ∀ j (hj : j < doc.length), j ≠ i → (doc.get ⟨j, hj⟩).tweetId ≠ some rid) :
    (filterTweets dp now cfg doc st₀).decisions.get? i =
      some Reason.parentFiltered := by
  rw [filterTweets_decisions]
  apply runClassify_parent_at dp now cfg [] doc _ hi
    (seedOldParents_seeds_conv dp now cfg doc _ hroot h1 h2 h3 h4) h5 h6
  intro rid hrid
  obtain ⟨hnot, hothers⟩ := h7 rid hrid
  constructor
  · intro hmem
    rcases seedOldParents_allFiltered_sub dp now cfg doc _ hmem
      with h' | ⟨t, ht, hid, hrep⟩
    · exact hnot h'
    · obtain ⟨⟨j, hj⟩, rfl⟩ := List.mem_iff_get.mp ht
      by_cases hji : j = i
      · subst hji
        rw [h5] at hrep
        cases hrep
      · exact hothers j hj hji hid
  · exact hothers

/-- Witness for C3 at concrete inputs: in a two-node document where the
reply precedes its old root, the reply is still cascade-filtered. -/
theorem replyGuy_C3_cascade_witness :
    (filterTweets noDateParse 100000000 sampleSettings cascadeDoc
        emptyState).decisions.get? 0 = some Reason.parentFiltered := by
  refine @replyGuy_C3_cascade noDateParse 100000000 sampleSettings cascadeDoc
    emptyState cascadeRoot ⟨none, "300m"⟩ "c1" 0
    (by decide) (by decide) (by decide) (by decide) (by decide) (by decide)
    (by decide) (by decide) ?_
  intro rid hrid
  have : rid = "11" := by
    have : some "11" = some rid := hrid
    exact (Option.some.injEq _ _ ▸ this).symm
  subst this
  refine ⟨by decide, ?_⟩
  intro j hj hne
  cases j with
  | zero => exact absurd rfl hne
  | succ n =>
    cases n with
    | zero => exact (by decide : cascadeRoot.tweetId ≠ some "11")
    | succ m =>
      exfalso
      have hm := hj
      simp only [cascadeDoc, List.length_cons, List.length_nil] at hm
      omega

/-- C10: Stats consistency of every full pass.  `filterTweets` resets the
three counters before classifying; afterwards `hiddenByFollowers` never
exceeds `hidden`, and `shown + hidden` equals the number of nodes
processed. -/
theorem replyGuy_C10_stats_consistency (dp : String → Option Int) (now : Int)
    (cfg : Settings) (doc : List TweetNode) (st₀ : EngState) :
    (filterTweets dp now cfg doc st₀).state.stats.hiddenByFollowers ≤
      (filterTweets dp now cfg doc st₀).state.stats.hidden ∧
    (filterTweets dp now cfg doc st₀).state.stats.shown +
        (filterTweets dp now cfg doc st₀).state.stats.hidden = doc.length := by
  rw [filterTweets_state]
  have hseed : (seedOldParents dp now cfg doc
      { st₀ with stats := ⟨0, 0, 0⟩ }).stats = ⟨0, 0, 0⟩ := by
    rw [seedOldParents_stats]
  obtain ⟨h1, h2⟩ := runClassify_stats dp now cfg [] doc
    (seedOldParents dp now cfg doc { st₀ with stats := ⟨0, 0, 0⟩ })
  rw [hseed] at h1 h2
  simp only at h1 h2
  exact ⟨by omega, by omega⟩

/-- C4 counterexample: running `filterTweets` twice on the same unchanged
document with unchanged configuration does not yield identical decisions or
identical counts.  In the sample document, the reply to `@alice` is shown in
the first pass (its author's old tweet has not yet received the filtered
class when it is examined) but `parent_filtered` in the second pass, because
`isReplyingToFilteredUser` reads the classes the first pass applied; and the
low-follower node, counted in `hiddenByFollowers` in pass one, is
re-classified `previously_filtered` in pass two, so that counter drops from
1 to 0. -/
theorem replyGuy_C4_counterexample :
    (filterTweets noDateParse 100000000 sampleSettings sampleDoc
        emptyState).decisions ≠
      (filterTweets noDateParse 100000000 sampleSettings
        (filterTweets noDateParse 100000000 sampleSettings sampleDoc
          emptyState).doc
        (filterTweets noDateParse 100000000 sampleSettings sampleDoc
          emptyState).state).decisions ∧
    (filterTweets noDateParse 100000000 sampleSettings sampleDoc
        emptyState).state.stats ≠
      (filterTweets noDateParse 100000000 sampleSettings
        (filterTweets noDateParse 100000000 sampleSettings sampleDoc
          emptyState).doc
        (filterTweets noDateParse 100000000 sampleSettings sampleDoc
          emptyState).state).state.stats ∧
    (filterTweets noDateParse 100000000 sampleSettings sampleDoc
        emptyState).decisions =
      [Reason.shown, Reason.previouslyFiltered, Reason.followers] ∧
    (filterTweets noDateParse 100000000 sampleSettings
        (filterTweets noDateParse 100000000 sampleSettings sampleDoc
          emptyState).doc
        (filterTweets noDateParse 100000000 sampleSettings sampleDoc
          emptyState).state).decisions =
      [Reason.parentFiltered, Reason.previouslyFiltered,
        Reason.previouslyFiltered] ∧
    (filterTweets noDateParse 100000000 sampleSettings sampleDoc
        emptyState).state.stats = ⟨2, 1, 1⟩ ∧
    (filterTweets noDateParse 100000000 sampleSettings
        (filterTweets noDateParse 100000000 sampleSettings sampleDoc
          emptyState).doc
        (filterTweets noDateParse 100000000 sampleSettings sampleDoc
          emptyState).state).state.stats = ⟨3, 0, 0⟩ := by
  refine ⟨by decide, by decide, by decide, by decide, by decide, by decide⟩

/-- C4 amended: full idempotence fails (see the counterexample), but the
filtered set is stable in one direction — every node with a resolvable
identity that a full pass filters, for whatever reason, is filtered again by
an immediately following full pass over the unchanged document, this time as
`previously_filtered`, because its identity entered `allFilteredTweets` and
is never removed. -/
theorem replyGuy_C4_amended (dp : String → Option Int) (now : Int) (cfg : Settings)
    (doc : List TweetNode) (st₀ : EngState) {i : Nat} (hi : i < doc.length)
    {id : String} (hid : (doc.get ⟨i, hi⟩).tweetId = some id) {d : Reason}
    (hd : (filterTweets dp now cfg doc st₀).decisions.get? i = some d)
    (hne : d ≠ Reason.shown) :
    (filterTweets dp now cfg (filterTweets dp now cfg doc st₀).doc
        (filterTweets dp now cfg doc st₀).state).decisions.get? i =
      some Reason.previouslyFiltered := by
  have hmem : id ∈ (filterTweets dp now cfg doc st₀).state.allFilteredTweets := by
    rw [filterTweets_state]
    rw [filterTweets_decisions] at hd
    exact runClassify_ne_shown_mem_at dp now cfg [] doc _ hi hid hd hne
  have hlen : (filterTweets dp now cfg doc st₀).doc.length = doc.length := by
    rw [filterTweets_doc, runClassify_doc_length]
    simp
  have hi2 : i < (filterTweets dp now cfg doc st₀).doc.length := by
    rw [hlen]
    exact hi
  obtain ⟨b, hb⟩ : ∃ b, (filterTweets dp now cfg doc st₀).doc.get? i =
      some { doc.get ⟨i, hi⟩ with filtered := b } := by
    rw [filterTweets_doc]
    have h := @runClassify_doc_get dp now cfg [] doc
      (seedOldParents dp now cfg doc { st₀ with stats := ⟨0, 0, 0⟩ }) i hi
    simpa using h
  have hid2 : ((filterTweets dp now cfg doc st₀).doc.get ⟨i, hi2⟩).tweetId =
      some id := by
    have hg : (filterTweets dp now cfg doc st₀).doc.get? i =
        some ((filterTweets dp now cfg doc st₀).doc.get ⟨i, hi2⟩) :=
      List.get?_eq_get hi2
    rw [hg] at hb
    have hb' := Option.some.inj hb
    rw [hb']
    exact hid
  rw [filterTweets_decisions]
  exact runClassify_prev_at dp now cfg [] _ _ hi2 hid2
    (seedOldParents_allFiltered_mono dp now cfg _ _ hmem)

/-- Witness for C4 amended: the low-follower node, filtered by the follower
criterion in pass one, is re-filtered as previously-filtered by pass two. -/
theorem replyGuy_C4_amended_witness :
    (filterTweets noDateParse 100000000 sampleSettings
        (filterTweets noDateParse 100000000 sampleSettings [sampleLowFollowerC]
          emptyState).doc
        (filterTweets noDateParse 100000000 sampleSettings [sampleLowFollowerC]
          emptyState).state).decisions.get? 0 =
      some Reason.previouslyFiltered := by
  exact @replyGuy_C4_amended noDateParse 100000000 sampleSettings
    [sampleLowFollowerC] emptyState 0 (by decide) "3" rfl Reason.followers
    (by decide) (by decide)

end ReplyGuy

